import Mathlib

/-!
Verification development for the contentPlan orchestration core.

The Python source is shallowly embedded: pure helpers become Lean
functions, the two Celery background tasks and the theme-selection route
become explicit state-passing functions over a `St` record (one job and
its themes), and every `db.session.commit()` in the source appends the
pending state to a trace of persisted snapshots.  External adapters
(scraper, SerpAPI search, OpenAI completion) are oracles passed in as
inputs; an adapter call that raises is modelled as an `Except.error`
carrying the exception text.
-/

namespace ContentPlan

/-- A search-result entry as built by `utils/search.py` (`search_serpapi`):
a dict with `title`, `link`, `snippet`, `position` keys.  `link` is
`Option String` so that a missing `"link"` key can be distinguished from
an empty string; `result.get("link", "")` is `getLink`. -/
structure SearchResult where
  title : String
  link : Option String
  snippet : String
  position : Nat
deriving DecidableEq, Repr

/-- `result.get("link", "")` from `deduplicate_results`. -/
def getLink (r : SearchResult) : String := r.link.getD ""

/-- The accumulation loop of `utils/search.py::deduplicate_results`:
`seen_urls` is the set of already-seen links (modelled as a list, with
membership as the set test), and an entry is kept iff its link is truthy
(non-empty) and not yet seen. -/
def dedupAux (seen : List String) : List SearchResult → List SearchResult
  | [] => []
  | r :: rest =>
    let url := getLink r
    if url ≠ "" ∧ url ∉ seen then r :: dedupAux (url :: seen) rest
    else dedupAux seen rest

/-- `utils/search.py::deduplicate_results`: deduplicate search results by
URL, keeping the first occurrence of each non-empty link. -/
def deduplicate_results (results : List SearchResult) : List SearchResult :=
  dedupAux [] results

/-! ## Phase state machine (spec-modelled)

`utils/workflow.py` (`WorkflowManager`) is imported by `app.py` and
`tasks.py` but is not part of the sources; it is modelled from the spec
here. -/

/-- Modelled from the spec: the fixed forward phase order of
`utils/workflow.py` (absent from the sources), §4.1:
INITIALIZATION → RESEARCH → ANALYSIS → THEME_SELECTION →
CONTENT_IDEATION → EDITORIAL → COMPLETION.  The phase names match the
strings stored in `Job.current_phase` (`app.py` creates jobs with
`current_phase='INITIALIZATION'`). -/
inductive Phase where
  | INITIALIZATION
  | RESEARCH
  | ANALYSIS
  | THEME_SELECTION
  | CONTENT_IDEATION
  | EDITORIAL
  | COMPLETION
deriving DecidableEq, Repr

/-- Position of a phase in the fixed forward order. -/
def Phase.idx : Phase → Nat
  | .INITIALIZATION => 0
  | .RESEARCH => 1
  | .ANALYSIS => 2
  | .THEME_SELECTION => 3
  | .CONTENT_IDEATION => 4
  | .EDITORIAL => 5
  | .COMPLETION => 6

/-- `p` is at or past `q` in the fixed forward order. -/
def Phase.ge (p q : Phase) : Prop := q.idx ≤ p.idx

instance : DecidablePred (fun pq : Phase × Phase => Phase.ge pq.1 pq.2) :=
  fun _ => Nat.decLe _ _

/-- Modelled from the spec: the serializable state of
`utils/workflow.py`'s `WorkflowManager` (absent from the sources) — the
current phase plus the internally recorded theme selection
(`process_theme_selection` "records the selection internally", §4.1).
`save_state`/`load_state` round-trip this record through
`Job.workflow_data`. -/
structure WMState where
  phase : Phase
  selected : Option Nat
deriving DecidableEq, Repr

/-- Modelled from the spec: a fresh `WorkflowManager()` starts at
INITIALIZATION with no selection recorded (§4.1). -/
def WMState.init : WMState := ⟨.INITIALIZATION, none⟩

/-- Modelled from the spec: `WorkflowManager.advance_phase` moves to the
next phase in the fixed order and fails (`IllegalTransition`) from
COMPLETION, or from THEME_SELECTION before a selection exists (§4.1). -/
def WMState.advance_phase : WMState → Option WMState
  | ⟨.INITIALIZATION, s⟩ => some ⟨.RESEARCH, s⟩
  | ⟨.RESEARCH, s⟩ => some ⟨.ANALYSIS, s⟩
  | ⟨.ANALYSIS, s⟩ => some ⟨.THEME_SELECTION, s⟩
  | ⟨.THEME_SELECTION, s⟩ =>
    match s with
    | none => none
    | some _ => some ⟨.CONTENT_IDEATION, s⟩
  | ⟨.CONTENT_IDEATION, s⟩ => some ⟨.EDITORIAL, s⟩
  | ⟨.EDITORIAL, s⟩ => some ⟨.COMPLETION, s⟩
  | ⟨.COMPLETION, _⟩ => none

/-- Modelled from the spec: `WorkflowManager.process_theme_selection`
validates `1 ≤ theme_index ≤ len(themes)` (else `OutOfRange`) and
records the selection internally (§4.1). -/
def WMState.process_theme_selection (w : WMState) (idx : Nat) (nThemes : Nat) :
    Option WMState :=
  if 1 ≤ idx ∧ idx ≤ nThemes then some { w with selected := some idx } else none

/-! ## Data model (`models.py`) -/

/-- A row of the `themes` table (`models.py::Theme`), restricted to the
fields the claims touch.  `keywords` is always `NULL` for rows created
by `tasks.py` and is omitted. -/
structure ThemeRec where
  title : String
  description : String
  is_selected : Bool
deriving DecidableEq, Repr

/-- A row of the `jobs` table (`models.py::Job`) together with the
`in_progress` claim flag that `tasks.py` and `app.py` read and write
(the flag is part of the deployed schema; `models.py` in the sources
lags behind it).  Message timestamps are opaque and dropped; a message
is its text.  `completed_at` is modelled as presence only. -/
structure JobRec where
  status : String
  website_url : String
  keywords : List String
  current_phase : Phase
  in_progress : Bool
  progress : Nat
  workflow_data : WMState
  messages : List String
  error : Option String
  website_content_length : Option Nat
  search_results : Option (List SearchResult)
  search_results_count : Option Nat
  brand_brief : Option String
  search_analysis : Option String
  content_cluster : Option String
  article_ideas : Option String
  final_plan : Option String
  completed_at : Bool
deriving DecidableEq, Repr

/-- Durable state of one workflow instance: the job row and its theme
rows (in primary-key order, the order `Theme.query.filter_by(job_id)`
returns them). -/
structure St where
  job : JobRec
  themes : List ThemeRec
deriving DecidableEq, Repr

/-- A task execution in flight: the pending (session) state plus the
ordered list of snapshots committed so far — every
`db.session.commit()` in the source appends the pending state here. -/
structure Run where
  st : St
  trace : List St
deriving Repr

/-- `db.session.commit()`. -/
def commitR (r : Run) : Run := { r with trace := r.trace ++ [r.st] }

/-- Update the pending job row. -/
def setJob (f : JobRec → JobRec) (r : Run) : Run :=
  { r with st := { r.st with job := f r.st.job } }

/-- `tasks.py::add_message_to_job`: append the message text to
`job.messages` and commit. -/
def addMsg (m : String) (r : Run) : Run :=
  commitR (setJob (fun j => { j with messages := j.messages ++ [m] }) r)

/-- Return value of a background task (the dict the Celery task
returns; `noneRet` is Python's implicit `return None`). -/
inductive TaskRet where
  | errorRet (msg : String)
  | awaiting
  | skippedRet
  | completedRet
  | noneRet
deriving DecidableEq, Repr

/-! ## Python string helpers -/

/-- Membership/split used for `"## Content Themes" in response` and
`response.split(marker, 1)[1]`: drop everything up to and including the
first occurrence of `m`; `none` when `m` does not occur. -/
def dropAfterFirst (m : List Char) : List Char → Option (List Char)
  | [] => if m = [] then some [] else none
  | c :: cs =>
    if m.isPrefixOf (c :: cs) then some ((c :: cs).drop m.length)
    else dropAfterFirst m cs

/-- Python `s.split(marker, 1)[1]` guarded by `marker in s`. -/
def pySplitAfter (marker s : String) : Option String :=
  (dropAfterFirst marker.data s.data).map String.mk


/-- Python `s.strip()`: drop leading and trailing whitespace (the ASCII
whitespace classes suffice for every string this development touches). -/
def pyStrip (s : String) : String :=
  String.mk (((s.data.dropWhile Char.isWhitespace).reverse.dropWhile
    Char.isWhitespace).reverse)

/-- The `if marker in resp: part after marker, stripped; else: resp
stripped` idiom of the brand-brief and search-analysis extractions
(`tasks.py` lines 250–255 and 277–282). -/
def pySplitStrip (marker s : String) : String :=
  match pySplitAfter marker s with
  | some rest => pyStrip rest
  | none => pyStrip s

/-- The validity check of the idempotency policy as written in
`tasks.py`: `field and len(field.strip()) >= 100` on a nullable text
column. -/
def validText : Option String → Bool
  | none => false
  | some s => !s.isEmpty && decide (100 ≤ (pyStrip s).length)

/-- Python `s.isdigit()` (ASCII digits). -/
def pyIsdigit (s : String) : Bool := !s.isEmpty && s.data.all Char.isDigit

/-- Python `int(s)` on an all-digit string. -/
def pyToNat (s : String) : Nat :=
  s.data.foldl (fun acc c => acc * 10 + (c.toNat - '0'.toNat)) 0

/-! ## Theme parsing (`tasks.py` lines 319–344)

The regex `(\d+)\.\s+\*\*(.*?)\*\*\s+(.*?)(?=\d+\.\s+\*\*|\Z)` with
`re.DOTALL`, applied by `re.finditer` to the text after the
`## Content Themes` marker. -/

/-- Match the fixed head `\d+\.\s+\*\*` of the theme pattern at the
start of `cs`, returning the remainder after the opening `**`. -/
def matchThemeHead (cs : List Char) : Option (List Char) :=
  let (ds, r1) := cs.span Char.isDigit
  if ds.isEmpty then none
  else
    match r1 with
    | '.' :: r2 =>
      let (ws, r3) := r2.span Char.isWhitespace
      if ws.isEmpty then none
      else
        match r3 with
        | '*' :: '*' :: r4 => some r4
        | _ => none
    | _ => none

/-- The zero-width lookahead `(?=\d+\.\s+\*\*|\Z)`: a fresh theme match
could start here. -/
def themeStartsHere (cs : List Char) : Bool := (matchThemeHead cs).isSome

/-- The lazy title group `(.*?)\*\*\s+`: scan to the first `**` that is
followed by at least one whitespace character, returning the title and
the remainder after that `**`. -/
def takeThemeTitle (fuel : Nat) (acc cs : List Char) :
    Option (List Char × List Char) :=
  match fuel, cs with
  | 0, _ => none
  | _ + 1, [] => none
  | fuel + 1, c :: rest =>
    match c, rest with
    | '*', '*' :: r2 =>
      if (match r2 with | w :: _ => w.isWhitespace | [] => false) then
        some (acc.reverse, r2)
      else takeThemeTitle fuel (c :: acc) rest
    | _, _ => takeThemeTitle fuel (c :: acc) rest

/-- The lazy description group `(.*?)` cut off by the lookahead: scan
until a fresh theme match could start, or the end of the text. -/
def takeThemeDesc (fuel : Nat) (acc cs : List Char) : List Char × List Char :=
  match fuel, cs with
  | 0, _ => (acc.reverse, cs)
  | _ + 1, [] => (acc.reverse, [])
  | fuel + 1, c :: rest =>
    if themeStartsHere (c :: rest) then (acc.reverse, c :: rest)
    else takeThemeDesc fuel (c :: acc) rest

/-- `re.finditer` over the theme pattern: scan left to right, emit each
match's (title, description) groups, and resume after the match. -/
def findThemesAux (fuel : Nat) (cs : List Char) : List (String × String) :=
  match fuel with
  | 0 => []
  | fuel + 1 =>
    match cs with
    | [] => []
    | _ :: rest =>
      match matchThemeHead cs with
      | none => findThemesAux fuel rest
      | some afterStars =>
        match takeThemeTitle (afterStars.length + 1) [] afterStars with
        | none => findThemesAux fuel rest
        | some (title, afterTitle) =>
          let r3 := (afterTitle.span Char.isWhitespace).2
          let (desc, rem) := takeThemeDesc (r3.length + 1) [] r3
          (String.mk title, String.mk desc) :: findThemesAux fuel rem

/-- All matches of the theme pattern in `s`, as (title, description)
pairs in order of occurrence. -/
def findThemeMatches (s : String) : List (String × String) :=
  findThemesAux (s.data.length + 1) s.data

/-- The Theme rows `tasks.py` creates from the matches: stripped title
and description, `is_selected=False`. -/
def mkThemes (ms : List (String × String)) : List ThemeRec :=
  ms.map fun td => ⟨pyStrip td.1, pyStrip td.2, false⟩

/-! ## Initial task (`tasks.py::process_workflow_task`)

Commits, message texts and branch order follow the source line by line.
Celery's `self.update_state` calls touch no durable state and are
dropped.  The `failed_keywords` list is accumulated by the source but
never read afterwards and is dropped.  The per-keyword progress value
`10 + int((idx+1)/len*10)` (float division then truncation) is modelled
with natural-number division. -/

/-- The dict returned by `utils/scraper.py::scrape_website`
(`success`, `title`, `description`, `body`, `error`). -/
structure ScrapeResult where
  success : Bool
  title : String
  description : String
  body : String
  error : Option String
deriving Repr

/-- Oracle inputs of one initial-task run: the scraper outcome, whether
`SERPAPI_API_KEY` is configured, the search adapter (per keyword;
`Except.error e` is a raised exception with text `e`), and the three
completion responses. -/
structure InitInputs where
  scrape : ScrapeResult
  serpapiKeyPresent : Bool
  search : String → Except String (List SearchResult)
  brandBriefResp : Except String String
  searchAnalysisResp : Except String String
  themesResp : Except String String

/-- The theme rows one initial-task run persists: the parse of the text
after the `## Content Themes` marker of the theme-step response (empty
when that step is never reached or the marker is absent — in those cases
no theme write happens at all). -/
def parsedThemes (inp : InitInputs) : List ThemeRec :=
  match inp.themesResp with
  | .ok t =>
    match pySplitAfter "## Content Themes" t with
    | some raw => mkThemes (findThemeMatches (pyStrip raw))
    | none => []
  | .error _ => []

/-- One keyword's run-state effect in the loop of `tasks.py` lines
170–195: log the attempt (commit), log the outcome `mText` (commit),
then commit the updated progress `p`. -/
def kwStepRun (k mText : String) (p : Nat) (r : Run) : Run :=
  commitR (setJob (fun j => { j with progress := p })
    (commitR (addMsg mText (commitR (addMsg ("🔍 Searching for keyword: " ++ k) r)))))

/-- The keyword loop, `tasks.py` lines 170–195: per keyword, log the
attempt, query the adapter, extend the aggregate or log the failure,
then commit the updated progress.  A failure on one keyword never
aborts the loop. -/
def kwLoop (search : String → Except String (List SearchResult)) (total : Nat) :
    List String → Nat → List SearchResult → Run → List SearchResult × Run
  | [], _, acc, r => (acc, r)
  | k :: ks, idx, acc, r =>
    let p := 10 + ((idx + 1) * 10) / total
    match search k with
    | .ok results =>
      if results = [] then
        kwLoop search total ks (idx + 1) acc
          (kwStepRun k ("⚠️ No results found for keyword: " ++ k) p r)
      else
        kwLoop search total ks (idx + 1) (acc ++ results)
          (kwStepRun k ("✅ Found " ++ toString results.length ++
            " results for keyword: " ++ k) p r)
    | .error e =>
      kwLoop search total ks (idx + 1) acc
        (kwStepRun k ("❌ Error searching for '" ++ k ++ "': " ++ e) p r)

/-- The `except` handler of the research/analysis `try` block
(`tasks.py` lines 365–372). -/
def researchExcept (e : String) (r : Run) : Run × TaskRet :=
  let errMsg := "Error in research phase: " ++ e
  let r := setJob (fun j => { j with status := "error", error := some errMsg }) r
  let r := commitR (addMsg ("❌ " ++ errMsg) r)
  (r, .errorRet errMsg)

/-- The research/analysis `try` block (`tasks.py` lines 237–363), from
the brand-brief completion call to the THEME_SELECTION advance.  `wm1`
is the local workflow manager, already advanced to RESEARCH. -/
def researchSection (inp : InitInputs) (wm1 : WMState) (r : Run) : Run × TaskRet :=
  match inp.brandBriefResp with
  | .error e => researchExcept e r
  | .ok resp =>
    let r := setJob (fun j =>
      { j with brand_brief := some (pySplitStrip "## Brand Brief" resp),
               progress := 30 }) r
    let r := commitR (addMsg "✅ Completed brand brief analysis" r)
    let r := commitR (addMsg "🔍 Analyzing search results..." r)
    match inp.searchAnalysisResp with
    | .error e => researchExcept e r
    | .ok resp2 =>
      let r := setJob (fun j =>
        { j with search_analysis :=
                   some (pySplitStrip "## Search Results Analysis" resp2),
                 progress := 40 }) r
      let r := addMsg "✅ Completed search results analysis" r
      let r := commitR (addMsg "📊 Moving to content theme generation..." r)
      match wm1.advance_phase with
      | none => researchExcept "IllegalTransition" r
      | some wm2 =>
        let r := commitR (setJob (fun j =>
          { j with workflow_data := wm2, current_phase := wm2.phase }) r)
        let r := commitR (addMsg "🎯 ANALYSIS PHASE: Generating content themes" r)
        match inp.themesResp with
        | .error e => researchExcept e r
        | .ok tresp =>
          match pySplitAfter "## Content Themes" tresp with
          | some rawText =>
            let ms := findThemeMatches (pyStrip rawText)
            let r := { r with st := { r.st with themes := mkThemes ms } }
            let r := commitR r
            let r := addMsg ("✅ Generated " ++ toString ms.length ++
              " content themes") r
            let r := commitR (addMsg "⏳ Waiting for theme selection..." r)
            match wm2.advance_phase with
            | none => researchExcept "IllegalTransition" r
            | some wm3 =>
              let r := commitR (setJob (fun j =>
                { j with workflow_data := wm3, current_phase := wm3.phase,
                         status := "awaiting_selection" }) r)
              (r, .awaiting)
          | none =>
            let errMsg := "❌ Failed to parse themes from AI response"
            let r := setJob (fun j =>
              { j with status := "error", error := some errMsg }) r
            let r := commitR (addMsg errMsg r)
            (r, .errorRet errMsg)

/-- The remainder of the initial task after the keyword loop
(`tasks.py` lines 197–363): dedup, zero-result check, RESEARCH advance,
and the research/analysis section. -/
def afterSearch (inp : InitInputs) (acc : List SearchResult) (r : Run) :
    Run × TaskRet :=
  let r := commitR (addMsg "🔄 Deduplicating search results..." r)
  let unique := deduplicate_results acc
  if unique.length = 0 then
    let r := setJob (fun j =>
      { j with status := "error",
               error := some "No search results were found for any keywords. Try different keywords." }) r
    let r := commitR (addMsg
      "❌ No search results were found for any keywords. Try different keywords." r)
    (r, .errorRet "No search results found")
  else
    let r := setJob (fun j =>
      { j with search_results := some unique,
               search_results_count := some unique.length, progress := 20 }) r
    let r := commitR (addMsg ("✅ Found " ++ toString unique.length ++
      " unique search results after deduplication") r)
    let r := commitR (addMsg "🤖 Starting AI analysis of content and search results..." r)
    match WMState.init.advance_phase with
    | none => researchExcept "IllegalTransition" r
    | some wm1 =>
      let r := commitR (setJob (fun j =>
        { j with workflow_data := wm1, current_phase := wm1.phase }) r)
      let r := commitR (addMsg
        "📊 RESEARCH PHASE: Analyzing website content and search results" r)
      researchSection inp wm1 r

/-- `tasks.py::process_workflow_task`: the initial background task, from
status `processing` through scrape, keyword search, dedup, brand brief,
search analysis and theme generation, ending at `awaiting_selection` or
`error`. -/
def process_workflow_task (inp : InitInputs) (st0 : St) : Run × TaskRet :=
  let r : Run := ⟨st0, []⟩
  let r := setJob (fun j => { j with status := "processing", progress := 0 }) r
  let r := addMsg "Starting workflow processing..." r
  let r := addMsg "Preparing to analyze website content and keywords..." r
  let r := commitR r
  let r := setJob (fun j =>
    { j with workflow_data := WMState.init, current_phase := WMState.init.phase }) r
  let r := commitR r
  let r := commitR (addMsg ("🔍 Retrieving content from " ++
    r.st.job.website_url ++ "...") r)
  if !inp.scrape.success then
    let errMsg := inp.scrape.error.getD "Unknown error"
    let r := setJob (fun j => { j with status := "error", error := some errMsg }) r
    let r := commitR (addMsg ("❌ Error: " ++ errMsg) r)
    (r, .errorRet errMsg)
  else
    let websiteContent := "\nTitle: " ++ inp.scrape.title ++ "\nDescription: " ++
      inp.scrape.description ++ "\nBody: " ++ inp.scrape.body ++ "\n"
    let r := setJob (fun j =>
      { j with website_content_length := some websiteContent.length, progress := 10 }) r
    let r := commitR (addMsg ("✅ Successfully retrieved " ++
      toString websiteContent.length ++ " characters of content") r)
    let r := commitR (addMsg ("🔍 Starting keyword research for: " ++
      String.intercalate ", " r.st.job.keywords) r)
    if !inp.serpapiKeyPresent then
      let errMsg := "❌ SERPAPI_API_KEY not found in configuration"
      let r := setJob (fun j => { j with status := "error", error := some errMsg }) r
      let r := commitR (addMsg errMsg r)
      (r, .errorRet errMsg)
    else
      let out := kwLoop inp.search r.st.job.keywords.length r.st.job.keywords 0 [] r
      afterSearch inp out.1 out.2

/-! ## Continuation task (`tasks.py::continue_workflow_after_selection_task`) -/

/-- Oracle inputs of one continuation run: the three completion
responses (`Except.error e` is a raised provider exception). -/
structure ContInputs where
  clusterResp : Except String String
  ideasResp : Except String String
  planResp : Except String String

/-- Result of one continuation run: the run (final pending state and
commit trace), the task's return value, and how many times the
text-completion adapter was invoked for each of the three steps. -/
structure ContRes where
  run : Run
  ret : TaskRet
  clusterCalls : Nat
  ideasCalls : Nat
  planCalls : Nat
deriving Repr

/-- Row count of the atomic conditional claim,
`UPDATE jobs SET in_progress = true WHERE id = :job_id AND in_progress = false`
(`tasks.py` lines 392–395): 1 iff this caller won the race. -/
def claimRows (st : St) : Nat := if st.job.in_progress then 0 else 1

/-- A step's inner `except` handler in the continuation task: set status
`error`, record `"Error in <stage>: <e>"`, log, commit and return —
without touching `in_progress`. -/
def contStepError (stage e : String) (r : Run) (c i p : Nat) : ContRes :=
  let errMsg := "Error in " ++ stage ++ ": " ++ e
  let r := setJob (fun j => { j with status := "error", error := some errMsg }) r
  let r := commitR (addMsg ("❌ " ++ errMsg) r)
  ⟨r, .errorRet e, c, i, p⟩

/-- The exception text of the too-short guard on a completion result. -/
def tooShort (what : String) : String :=
  "OpenAI API returned an empty or too short response for " ++ what ++ "."

/-- Step 3 of the continuation task (`tasks.py` lines 503–551): final
plan generation, idempotency-checked.  On the skip branch the function
falls off the end of the task body (implicit `return None`); on success
it completes the job and releases the claim. -/
def contStep3 (wm : WMState) (inp : ContInputs) (c i : Nat) (r : Run) : ContRes :=
  let r := setJob (fun j => { j with progress := 90 }) r
  let r := commitR (addMsg "📊 EDITING PHASE: Adding final touches to the content plan" r)
  if validText r.st.job.final_plan then
    let r := addMsg "ℹ️ Final plan already exists, skipping OpenAI call." r
    ⟨r, .noneRet, c, i, 0⟩
  else
    match inp.planResp with
    | .error e => contStepError "final plan generation" e r c i 1
    | .ok fp =>
      if fp.isEmpty || (pyStrip fp).length < 100 then
        contStepError "final plan generation" (tooShort "final plan generation") r c i 1
      else
        let r := setJob (fun j =>
          { j with final_plan := some fp, progress := 100 }) r
        match wm.advance_phase with
        | none =>
          let e := "IllegalTransition"
          let r := setJob (fun j =>
            { j with status := "error", error := some e, in_progress := false }) r
          let r := commitR (addMsg ("❌ Error in theme selection workflow: " ++ e) r)
          ⟨r, .errorRet e, c, i, 1⟩
        | some wm' =>
          let r := setJob (fun j =>
            { j with workflow_data := wm', current_phase := wm'.phase,
                     status := "completed", completed_at := true }) r
          let r := addMsg "✅ Content plan completed successfully!" r
          let r := commitR (addMsg "🎉 Your content strategy is ready!" r)
          let r := commitR (setJob (fun j => { j with in_progress := false }) r)
          ⟨r, .completedRet, c, i, 1⟩

/-- Step 2 of the continuation task (`tasks.py` lines 459–501): article
ideation, idempotency-checked. -/
def contStep2 (wm : WMState) (inp : ContInputs) (r : Run) : ContRes :=
  let r := commitR (addMsg "💡 ARTICLE IDEATION PHASE: Developing content ideas" r)
  if validText r.st.job.article_ideas then
    let r := addMsg "ℹ️ Article ideas already exist, skipping OpenAI call." r
    contStep3 wm inp 1 0 r
  else
    match inp.ideasResp with
    | .error e => contStepError "article ideation" e r 1 1 0
    | .ok ai =>
      if ai.isEmpty || (pyStrip ai).length < 100 then
        contStepError "article ideation" (tooShort "article ideation") r 1 1 0
      else
        let r := commitR (setJob (fun j => { j with article_ideas := some ai }) r)
        let r := addMsg "✅ Article ideas generated" r
        contStep3 wm inp 1 1 r

/-- `tasks.py::continue_workflow_after_selection_task`: atomically claim
the job, require a selected theme, then run the three completion steps.
The cluster step has no idempotency guard; the claim is released only on
the success path (and in the outer exception handler, reachable here
through an illegal phase advance). -/
def continue_workflow_after_selection_task (inp : ContInputs) (st0 : St) : ContRes :=
  let r0 : Run := ⟨st0, []⟩
  if claimRows st0 = 0 then
    ⟨commitR r0, .skippedRet, 0, 0, 0⟩
  else
    let r := commitR (setJob (fun j => { j with in_progress := true }) r0)
    let wm := r.st.job.workflow_data
    match r.st.themes.find? (fun t => t.is_selected) with
    | none =>
      let r := setJob (fun j =>
        { j with status := "error", error := some "No theme was selected" }) r
      let r := commitR (addMsg "❌ Error: No theme was selected" r)
      ⟨r, .errorRet "No theme was selected", 0, 0, 0⟩
    | some sel =>
      let r := addMsg "📝 STRATEGY PHASE: Creating content clusters" r
      let r := commitR (addMsg ("🎯 Processing selected theme: " ++ sel.title) r)
      match inp.clusterResp with
      | .error e => contStepError "content cluster generation" e r 1 0 0
      | .ok cc =>
        if cc.isEmpty || (pyStrip cc).length < 100 then
          contStepError "content cluster generation"
            (tooShort "content cluster generation") r 1 0 0
        else
          let r := setJob (fun j =>
            { j with content_cluster := some cc, progress := 80 }) r
          let r := commitR (addMsg "✅ Content clusters created" r)
          contStep2 wm inp r

/-! ## Theme-selection endpoint (`app.py::theme_selection`) -/

/-- The relevant shape of the POST request: whether the body is JSON and
the `theme_number` value (`data.get('theme_number')`), a string when
present. -/
structure SelReq where
  isJson : Bool
  themeNumber : Option String

/-- The route's response: `conflict` is HTTP 409, `badRequest` 400,
`serverError` 500, `okResp` 200. -/
inductive SelResp where
  | conflict (msg : String)
  | badRequest (msg : String)
  | serverError
  | okResp
deriving DecidableEq, Repr

/-- Outcome of one call to the route: the response, the resulting
durable state, and whether the continuation task was enqueued. -/
structure SelRes where
  resp : SelResp
  st : St
  enqueued : Bool
deriving Repr

/-- `app.py::theme_selection` (lines 190–255): guard on
`in_progress`/status, validate the request, reject double selection and
out-of-range indices, otherwise mark the theme selected, record the
selection in the workflow snapshot, set status `processing` and enqueue
the continuation task. -/
def theme_selection (st : St) (req : SelReq) : SelRes :=
  if st.job.in_progress || st.job.status ≠ "awaiting_selection" then
    ⟨.conflict "Job is already being processed or not awaiting selection", st, false⟩
  else if !req.isJson then
    ⟨.badRequest "Invalid request format, expected JSON", st, false⟩
  else
    match req.themeNumber with
    | none => ⟨.badRequest "Invalid theme number", st, false⟩
    | some s =>
      if s.isEmpty || !pyIsdigit s then ⟨.badRequest "Invalid theme number", st, false⟩
      else if st.themes.any (fun t => t.is_selected) then
        ⟨.conflict "Theme already selected", st, false⟩
      else
        let wm := st.job.workflow_data
        let n := pyToNat s
        if 1 ≤ n ∧ n ≤ st.themes.length then
          let selTitle := (st.themes.getD (n - 1) ⟨"", "", false⟩).title
          let themes' := st.themes.modify
            (fun t => { t with is_selected := true }) (n - 1)
          match wm.process_theme_selection n st.themes.length with
          | none =>
            ⟨.serverError, { st with themes := themes' }, false⟩
          | some wm' =>
            let st' : St :=
              { job := { st.job with
                  workflow_data := wm',
                  current_phase := wm'.phase,
                  messages := st.job.messages ++ ["Selected theme: " ++ selTitle],
                  status := "processing" },
                themes := themes' }
            ⟨.okResp, st', true⟩
        else ⟨.badRequest "Theme number out of range", st, false⟩

/-! ## Characterizations used by the theorems -/

/-- The aggregate the keyword loop accumulates: per keyword, the
adapter's results (nothing on an exception; the empty list contributes
nothing), concatenated in keyword order. -/
def aggSearch (search : String → Except String (List SearchResult)) :
    List String → List SearchResult
  | [] => []
  | k :: ks =>
    (match search k with | .ok rs => rs | .error _ => []) ++ aggSearch search ks

/-- Number of selected themes of a job. -/
def selCount (ts : List ThemeRec) : Nat :=
  (ts.filter (fun t => t.is_selected)).length

/-- The job/theme fields the keyword loop never touches (it only appends
messages, bumps progress and commits). -/
def coreEq (a b : St) : Prop :=
  a.job.status = b.job.status ∧ a.job.current_phase = b.job.current_phase ∧
  a.job.error = b.job.error ∧ a.job.search_results = b.job.search_results ∧
  a.job.brand_brief = b.job.brand_brief ∧
  a.job.search_analysis = b.job.search_analysis ∧ a.themes = b.themes

/-- The persisted-phase/persisted-data relation that actually holds at
every commit point of the initial task: a snapshot at or past RESEARCH
has search results, one at or past ANALYSIS has the brand brief and the
search analysis, and one at or past THEME_SELECTION has the regenerated
theme rows.  (The phase being *entered* is committed before the
artifacts computed during it — that is the corrected part of C5.) -/
def phaseDataOk (s : St) : Prop :=
  (Phase.ge s.job.current_phase .RESEARCH → s.job.search_results.isSome = true) ∧
  (Phase.ge s.job.current_phase .ANALYSIS →
    s.job.brand_brief.isSome = true ∧ s.job.search_analysis.isSome = true) ∧
  (Phase.ge s.job.current_phase .THEME_SELECTION → ∃ ms, s.themes = mkThemes ms)

/-- Per-snapshot invariant of the continuation task relative to the
start state: themes untouched, and the phase only moves in a commit that
carries a validated final plan. -/
def contSnap (st s : St) : Prop :=
  s.themes = st.themes ∧
  (s.job.current_phase = st.job.current_phase ∨ validText s.job.final_plan = true)

/-! ## Concrete fixtures for witnesses and counterexamples -/

/-- A completion response comfortably above the 100-character validity
threshold. -/
def longText : String := String.mk (List.replicate 120 'a')

/-- A search-result entry whose dict has no `link` key. -/
def noLink : SearchResult := ⟨"a", none, "s", 1⟩

/-- A search-result entry with an empty `link`. -/
def emptyLink : SearchResult := ⟨"b", some "", "s", 2⟩

/-- A search-result entry with a normal link. -/
def linked : SearchResult := ⟨"c", some "https://x", "s", 3⟩

/-- A duplicate of `linked` (same link, different payload). -/
def linkedDup : SearchResult := ⟨"d", some "https://x", "s", 4⟩

/-- A job paused at THEME_SELECTION / `awaiting_selection`, as the
initial task leaves it. -/
def jobAwait : JobRec :=
  { status := "awaiting_selection", website_url := "https://e.com", keywords := ["k"],
    current_phase := .THEME_SELECTION, in_progress := false, progress := 60,
    workflow_data := ⟨.THEME_SELECTION, none⟩, messages := [], error := none,
    website_content_length := none, search_results := none, search_results_count := none,
    brand_brief := some "bb", search_analysis := some "sa", content_cluster := none,
    article_ideas := none, final_plan := none, completed_at := false }

/-- The same job right after a successful theme selection (status
`processing`, selection recorded in the snapshot). -/
def jobCont : JobRec :=
  { jobAwait with status := "processing", workflow_data := ⟨.THEME_SELECTION, some 1⟩ }

/-- State with one selected theme, ready for the continuation task. -/
def stSel : St := ⟨jobCont, [⟨"T1", "d1", true⟩]⟩

/-- State with themes but none selected. -/
def stNoSel : St := ⟨jobCont, [⟨"T1", "d1", false⟩]⟩

/-- Continuation inputs where every completion call succeeds with a
valid (long enough) response. -/
def contInputsOk : ContInputs := ⟨.ok longText, .ok longText, .ok longText⟩

/-- `jobCont` with a valid content cluster already stored. -/
def jobContCluster : JobRec := { jobCont with content_cluster := some longText }

/-- `jobCont` with valid article ideas and a valid final plan already
stored. -/
def jobContIdeasPlan : JobRec :=
  { jobCont with article_ideas := some longText, final_plan := some longText }

/-- A fresh job as `app.py`'s index route creates it. -/
def jobFresh : JobRec :=
  { status := "initialized", website_url := "https://e.com", keywords := ["k"],
    current_phase := .INITIALIZATION, in_progress := false, progress := 0,
    workflow_data := ⟨.INITIALIZATION, none⟩, messages := [], error := none,
    website_content_length := none, search_results := none, search_results_count := none,
    brand_brief := none, search_analysis := none, content_cluster := none,
    article_ideas := none, final_plan := none, completed_at := false }

/-- Initial-task inputs where every adapter succeeds and the theme
response parses into two themes (spec §8 scenario B shape). -/
def initInputsOk : InitInputs :=
  { scrape := ⟨true, "t", "d", "b", none⟩, serpapiKeyPresent := true,
    search := fun _ => .ok [linked],
    brandBriefResp := .ok "## Brand Brief\nBB",
    searchAnalysisResp := .ok "## Search Results Analysis\nSA",
    themesResp := .ok "## Content Themes\n1. **T1** d1\n2. **T2** d2" }

/-- Initial-task inputs where keyword `a` succeeds and keyword `b`
raises. -/
def inpC7 : InitInputs :=
  { initInputsOk with
    search := fun k => if k = "a" then .ok [linked] else .error "boom" }

/-- A fresh job with two keywords. -/
def stC7 : St := ⟨{ jobFresh with keywords := ["a", "b"] }, []⟩

/-- A theme response that contains the `## Content Themes` marker but no
parsable numbered `**bold**` theme items. -/
def zeroThemesResp : String := "## Content Themes\nno numbered theme items here"

/-- Initial-task inputs whose theme response parses to zero themes. -/
def inpC4 : InitInputs := { initInputsOk with themesResp := .ok zeroThemesResp }

/-- A job paused for selection whose theme has already been selected —
the state a redelivered initial task would stomp on. -/
def stChosen : St := ⟨jobAwait, [⟨"Chosen", "x", true⟩]⟩

/-- A job mid-processing (not awaiting selection) with two unselected
themes. -/
def stProcTwo : St :=
  ⟨{ jobAwait with status := "processing" }, [⟨"T1", "d1", false⟩, ⟨"T2", "d2", false⟩]⟩

/-- A job paused for selection with two unselected themes. -/
def stAwaitTwo : St := ⟨jobAwait, [⟨"T1", "d1", false⟩, ⟨"T2", "d2", false⟩]⟩

/-! ## Deduplication lemmas -/

/-- Every element the dedup loop keeps has a non-empty link that was not
in the incoming seen set. -/
theorem dedupAux_mem_link {seen : List String} {xs : List SearchResult}
    {r : SearchResult} (h : r ∈ dedupAux seen xs) :
    getLink r ≠ "" ∧ getLink r ∉ seen := by
  induction xs generalizing seen with
  | nil => simp [dedupAux] at h
  | cons x rest ih =>
    simp only [dedupAux] at h
    split at h
    · rename_i hx
      rcases List.mem_cons.mp h with h | h
      · subst h; exact hx
      · have := ih h
        exact ⟨this.1, fun hs => this.2 (List.mem_cons_of_mem _ hs)⟩
    · exact ih h

/-- The dedup loop returns a sublist of its input (kept elements appear
in their original relative order). -/
theorem dedupAux_sublist (seen : List String) (xs : List SearchResult) :
    (dedupAux seen xs).Sublist xs := by
  induction xs generalizing seen with
  | nil => simp [dedupAux]
  | cons x rest ih =>
    simp only [dedupAux]
    split
    · exact List.Sublist.cons₂ x (ih _)
    · exact List.Sublist.cons x (ih _)

/-- The links of the dedup loop's output are pairwise distinct. -/
theorem dedupAux_nodup (seen : List String) (xs : List SearchResult) :
    ((dedupAux seen xs).map getLink).Nodup := by
  induction xs generalizing seen with
  | nil => simp [dedupAux]
  | cons x rest ih =>
    simp only [dedupAux]
    split
    · simp only [List.map_cons, List.nodup_cons]
      refine ⟨?_, ih _⟩
      intro hmem
      rcases List.mem_map.mp hmem with ⟨r, hr, hlink⟩
      have := (dedupAux_mem_link hr).2
      exact this (hlink ▸ List.mem_cons_self _ _)
    · exact ih _

/-- A list whose links are non-empty, pairwise distinct, and disjoint
from the seen set passes through the dedup loop unchanged. -/
theorem dedupAux_id (seen : List String) (ys : List SearchResult)
    (hne : ∀ r ∈ ys, getLink r ≠ "")
    (hnd : (ys.map getLink).Nodup)
    (hdis : ∀ r ∈ ys, getLink r ∉ seen) :
    dedupAux seen ys = ys := by
  induction ys generalizing seen with
  | nil => simp [dedupAux]
  | cons y rest ih =>
    have hy : getLink y ≠ "" := hne y (List.mem_cons_self _ _)
    have hys : getLink y ∉ seen := hdis y (List.mem_cons_self _ _)
    simp only [dedupAux, if_pos (And.intro hy hys)]
    congr 1
    have hnd' : (rest.map getLink).Nodup := (List.nodup_cons.mp hnd).2
    refine ih _ (fun r hr => hne r (List.mem_cons_of_mem _ hr)) hnd' ?_
    intro r hr hmem
    rcases List.mem_cons.mp hmem with hmem | hmem
    · exact (List.nodup_cons.mp hnd).1 (hmem ▸ List.mem_map_of_mem getLink hr)
    · exact hdis r (List.mem_cons_of_mem _ hr) hmem

/-- Deduplication is idempotent. -/
theorem deduplicate_results_idem (xs : List SearchResult) :
    deduplicate_results (deduplicate_results xs) = deduplicate_results xs := by
  unfold deduplicate_results
  exact dedupAux_id [] _ (fun r hr => (dedupAux_mem_link hr).1)
    (dedupAux_nodup [] xs) (fun r _ hmem => by simp at hmem)

/-- Any first occurrence (earliest index with its link, link non-empty
and outside the seen set) is kept by the dedup loop. -/
theorem dedupAux_keeps_first (seen : List String) (xs : List SearchResult)
    (i : Nat) (hi : i < xs.length)
    (hne : getLink (xs.get ⟨i, hi⟩) ≠ "")
    (hseen : getLink (xs.get ⟨i, hi⟩) ∉ seen)
    (hfirst : ∀ j (hj : j < xs.length), j < i →
      getLink (xs.get ⟨j, hj⟩) ≠ getLink (xs.get ⟨i, hi⟩)) :
    xs.get ⟨i, hi⟩ ∈ dedupAux seen xs := by
  induction xs generalizing seen i with
  | nil => simp at hi
  | cons x rest ih =>
    cases i with
    | zero =>
      simp only [List.get] at hne hseen ⊢
      simp only [dedupAux, if_pos (And.intro hne hseen)]
      exact List.mem_cons_self _ _
    | succ i' =>
      have hi' : i' < rest.length := Nat.lt_of_succ_lt_succ hi
      simp only [List.get] at hne hseen ⊢
      have hhead : getLink x ≠ getLink (rest.get ⟨i', hi'⟩) := by
        have := hfirst 0 (Nat.succ_pos _) (Nat.succ_pos _)
        simpa using this
      simp only [dedupAux]
      split
      · refine List.mem_cons_of_mem _ (ih _ i' hi' hne ?_ ?_)
        · intro hmem
          rcases List.mem_cons.mp hmem with hmem | hmem
          · exact hhead hmem.symm
          · exact hseen hmem
        · intro j hj hji
          have := hfirst (j + 1) (Nat.succ_lt_succ hj) (Nat.succ_lt_succ hji)
          simpa using this
      · refine ih _ i' hi' hne hseen ?_
        intro j hj hji
        have := hfirst (j + 1) (Nat.succ_lt_succ hj) (Nat.succ_lt_succ hji)
        simpa using this

/-- Conversely, every kept element is the first occurrence of its link
in the input. -/
theorem dedupAux_first_of_mem (seen : List String) (xs : List SearchResult)
    (r : SearchResult) (h : r ∈ dedupAux seen xs) :
    ∃ i, ∃ hi : i < xs.length, xs.get ⟨i, hi⟩ = r ∧
      ∀ j (hj : j < xs.length), j < i →
        getLink (xs.get ⟨j, hj⟩) ≠ getLink r := by
  induction xs generalizing seen with
  | nil => simp [dedupAux] at h
  | cons x rest ih =>
    have hlink := dedupAux_mem_link h
    simp only [dedupAux] at h
    split at h
    · rename_i hx
      rcases List.mem_cons.mp h with h | h
      · exact ⟨0, Nat.succ_pos _, h.symm, fun j hj hji => absurd hji (Nat.not_lt_zero j)⟩
      · rcases ih _ h with ⟨i, hi, hget, hfirst⟩
        have hrseen := (dedupAux_mem_link h).2
        refine ⟨i + 1, Nat.succ_lt_succ hi, hget, ?_⟩
        intro j hj hji
        cases j with
        | zero =>
          simp only [List.get]
          intro heq
          exact hrseen (heq ▸ List.mem_cons_self _ _)
        | succ j' =>
          have := hfirst j' (Nat.lt_of_succ_lt_succ hj) (Nat.lt_of_succ_lt_succ hji)
          simpa using this
    · rename_i hx
      rcases ih _ h with ⟨i, hi, hget, hfirst⟩
      refine ⟨i + 1, Nat.succ_lt_succ hi, hget, ?_⟩
      intro j hj hji
      cases j with
      | zero =>
        simp only [List.get]
        intro heq
        rcases not_and_or.mp hx with hx | hx
        · have hr := (dedupAux_mem_link h).1
          exact hr (heq ▸ not_ne_iff.mp hx)
        · have hrseen := (dedupAux_mem_link h).2
          exact hrseen (heq ▸ not_not.mp hx)
      | succ j' =>
        have := hfirst j' (Nat.lt_of_succ_lt_succ hj) (Nat.lt_of_succ_lt_succ hji)
        simpa using this

/-! ## Keyword-loop lemmas -/

/-- `coreEq` is reflexive. -/
theorem coreEq_refl (a : St) : coreEq a a := ⟨rfl, rfl, rfl, rfl, rfl, rfl, rfl⟩

/-- `coreEq` is transitive. -/
theorem coreEq_trans {a b c : St} (h1 : coreEq a b) (h2 : coreEq b c) :
    coreEq a c :=
  ⟨h1.1.trans h2.1, h1.2.1.trans h2.2.1, h1.2.2.1.trans h2.2.2.1,
   h1.2.2.2.1.trans h2.2.2.2.1, h1.2.2.2.2.1.trans h2.2.2.2.2.1,
   h1.2.2.2.2.2.1.trans h2.2.2.2.2.2.1, h1.2.2.2.2.2.2.trans h2.2.2.2.2.2.2⟩

/-- A keyword step only appends messages and bumps progress. -/
theorem kwStepRun_core (k m : String) (p : Nat) (r : Run) :
    coreEq (kwStepRun k m p r).st r.st := by
  simp [kwStepRun, coreEq, addMsg, commitR, setJob]

/-- The messages after one keyword step. -/
theorem kwStepRun_msgs (k m : String) (p : Nat) (r : Run) :
    (kwStepRun k m p r).st.job.messages =
      r.st.job.messages ++ ["🔍 Searching for keyword: " ++ k] ++ [m] := by
  simp [kwStepRun, addMsg, commitR, setJob]

/-- Every snapshot a keyword step commits agrees with the entry state on
the loop-invariant fields. -/
theorem kwStepRun_trace (k m : String) (p : Nat) (r : Run) :
    ∀ s ∈ (kwStepRun k m p r).trace, s ∈ r.trace ∨ coreEq s r.st := by
  intro s hs
  simp only [kwStepRun, addMsg, commitR, setJob] at hs
  rcases List.mem_append.mp hs with hs | hs
  · rcases List.mem_append.mp hs with hs | hs
    · rcases List.mem_append.mp hs with hs | hs
      · rcases List.mem_append.mp hs with hs | hs
        · rcases List.mem_append.mp hs with hs | hs
          · exact Or.inl hs
          · rw [List.mem_singleton.mp hs]; exact Or.inr (by simp [coreEq])
        · rw [List.mem_singleton.mp hs]; exact Or.inr (by simp [coreEq])
      · rw [List.mem_singleton.mp hs]; exact Or.inr (by simp [coreEq])
    · rw [List.mem_singleton.mp hs]; exact Or.inr (by simp [coreEq])
  · rw [List.mem_singleton.mp hs]; exact Or.inr (by simp [coreEq])

/-- Full characterization of the keyword loop: the aggregate it returns,
the fields it leaves alone, the monotone growth of messages and trace,
and the failure message each failing keyword leaves behind. -/
theorem kwLoop_spec (search : String → Except String (List SearchResult))
    (total : Nat) (ks : List String) (idx : Nat) (acc : List SearchResult)
    (r : Run) :
    (kwLoop search total ks idx acc r).1 = acc ++ aggSearch search ks ∧
    coreEq (kwLoop search total ks idx acc r).2.st r.st ∧
    (∀ m ∈ r.st.job.messages,
      m ∈ (kwLoop search total ks idx acc r).2.st.job.messages) ∧
    (∀ s ∈ (kwLoop search total ks idx acc r).2.trace,
      s ∈ r.trace ∨ coreEq s r.st) ∧
    (∀ k ∈ ks, ∀ e, search k = .error e →
      ("❌ Error searching for '" ++ k ++ "': " ++ e) ∈
        (kwLoop search total ks idx acc r).2.st.job.messages) ∧
    (∀ k ∈ ks, search k = .ok [] →
      ("⚠️ No results found for keyword: " ++ k) ∈
        (kwLoop search total ks idx acc r).2.st.job.messages) := by
  induction ks generalizing idx acc r with
  | nil =>
    simp only [kwLoop]
    exact ⟨by simp [aggSearch], coreEq_refl _, fun m hm => hm,
      fun s hs => Or.inl hs, by simp, by simp⟩
  | cons k ks ih =>
    cases hk : search k with
    | ok results =>
      by_cases hres : results = []
      · subst hres
        simp only [kwLoop, hk]
        rw [if_pos trivial]
        obtain ⟨h1, h2, h3, h4, h5, h6⟩ := ih (idx + 1) acc
          (kwStepRun k ("⚠️ No results found for keyword: " ++ k)
            (10 + ((idx + 1) * 10) / total) r)
        refine ⟨?_, coreEq_trans h2 (kwStepRun_core _ _ _ _), ?_, ?_, ?_, ?_⟩
        · rw [h1]; simp [aggSearch, hk]
        · intro m hm
          apply h3; rw [kwStepRun_msgs]; simp [hm]
        · intro s hs
          rcases h4 s hs with hmem | hcore
          · exact kwStepRun_trace _ _ _ _ s hmem
          · exact Or.inr (coreEq_trans hcore (kwStepRun_core _ _ _ _))
        · intro k2 hk2 e he
          rcases List.mem_cons.mp hk2 with hkk | hk2
          · subst hkk; rw [hk] at he; cases he
          · exact h5 k2 hk2 e he
        · intro k2 hk2 he
          rcases List.mem_cons.mp hk2 with hkk | hk2
          · subst hkk
            apply h3; rw [kwStepRun_msgs]; simp
          · exact h6 k2 hk2 he
      · simp only [kwLoop, hk]
        rw [if_neg hres]
        obtain ⟨h1, h2, h3, h4, h5, h6⟩ := ih (idx + 1) (acc ++ results)
          (kwStepRun k ("✅ Found " ++ toString results.length ++
              " results for keyword: " ++ k)
            (10 + ((idx + 1) * 10) / total) r)
        refine ⟨?_, coreEq_trans h2 (kwStepRun_core _ _ _ _), ?_, ?_, ?_, ?_⟩
        · rw [h1]; simp [aggSearch, hk]
        · intro m hm
          apply h3; rw [kwStepRun_msgs]; simp [hm]
        · intro s hs
          rcases h4 s hs with hmem | hcore
          · exact kwStepRun_trace _ _ _ _ s hmem
          · exact Or.inr (coreEq_trans hcore (kwStepRun_core _ _ _ _))
        · intro k2 hk2 e he
          rcases List.mem_cons.mp hk2 with hkk | hk2
          · subst hkk; rw [hk] at he; cases he
          · exact h5 k2 hk2 e he
        · intro k2 hk2 he
          rcases List.mem_cons.mp hk2 with hkk | hk2
          · subst hkk; rw [hk] at he
            exact absurd (by injection he) hres
          · exact h6 k2 hk2 he
    | error e =>
      simp only [kwLoop, hk]
      obtain ⟨h1, h2, h3, h4, h5, h6⟩ := ih (idx + 1) acc
        (kwStepRun k ("❌ Error searching for '" ++ k ++ "': " ++ e)
          (10 + ((idx + 1) * 10) / total) r)
      refine ⟨?_, coreEq_trans h2 (kwStepRun_core _ _ _ _), ?_, ?_, ?_, ?_⟩
      · rw [h1]; simp [aggSearch, hk]
      · intro m hm
        apply h3; rw [kwStepRun_msgs]; simp [hm]
      · intro s hs
        rcases h4 s hs with hmem | hcore
        · exact kwStepRun_trace _ _ _ _ s hmem
        · exact Or.inr (coreEq_trans hcore (kwStepRun_core _ _ _ _))
      · intro k2 hk2 e2 he
        rcases List.mem_cons.mp hk2 with hkk | hk2
        · subst hkk; rw [hk] at he
          cases he
          apply h3; rw [kwStepRun_msgs]; simp
        · exact h5 k2 hk2 e2 he
      · intro k2 hk2 he
        rcases List.mem_cons.mp hk2 with hkk | hk2
        · subst hkk; rw [hk] at he; cases he
        · exact h6 k2 hk2 he

/-! ## Initial-task section lemmas -/

/-- Splitting membership over an appended trace segment. -/
theorem all_mem_append {b l : List St} {Q : St → Prop}
    (h : ∀ s ∈ l, Q s) : ∀ s ∈ b ++ l, s ∈ b ∨ Q s := by
  intro s hs
  rcases List.mem_append.mp hs with h1 | h2
  · exact Or.inl h1
  · exact Or.inr (h s h2)

/-- A `mkThemes` image is a `mkThemes` image. -/
@[simp] theorem mkThemes_exists (ms0 : List (String × String)) :
    ∃ ms, mkThemes ms0 = mkThemes ms := ⟨ms0, rfl⟩

/-- The research/analysis section only appends messages. -/
theorem researchSection_msgs (inp : InitInputs) (wm1 : WMState) (r : Run) :
    ∀ m ∈ r.st.job.messages,
      m ∈ (researchSection inp wm1 r).1.st.job.messages := by
  intro m hm
  simp only [researchSection, researchExcept, addMsg, commitR, setJob]
  repeat' split
  all_goals simp [hm]

/-- The research/analysis section returns `awaiting`, a research-phase
exception error, or the theme-parse failure error. -/
theorem researchSection_ret (inp : InitInputs) (wm1 : WMState) (r : Run) :
    (researchSection inp wm1 r).2 = .awaiting ∨
    (∃ e, (researchSection inp wm1 r).2 =
      .errorRet ("Error in research phase: " ++ e)) ∨
    (researchSection inp wm1 r).2 =
      .errorRet "❌ Failed to parse themes from AI response" := by
  simp only [researchSection, researchExcept]
  repeat' split
  all_goals first
    | exact Or.inl rfl
    | exact Or.inr (Or.inr rfl)
    | exact Or.inr (Or.inl ⟨_, rfl⟩)

set_option maxHeartbeats 2000000

/-- Trace invariant of the research/analysis section, entered at
RESEARCH with search results persisted: every snapshot it commits
satisfies `phaseDataOk`, and themes are rewritten at most once, to
`parsedThemes`. -/
theorem researchSection_trace (inp : InitInputs) (r : Run)
    (hphase : r.st.job.current_phase = .RESEARCH)
    (hsr : r.st.job.search_results.isSome = true) :
    (∀ s ∈ (researchSection inp ⟨.RESEARCH, none⟩ r).1.trace,
      s ∈ r.trace ∨ (phaseDataOk s ∧
        (s.themes = r.st.themes ∨ s.themes = parsedThemes inp))) ∧
    phaseDataOk (researchSection inp ⟨.RESEARCH, none⟩ r).1.st ∧
    ((researchSection inp ⟨.RESEARCH, none⟩ r).1.st.themes = r.st.themes ∨
      (researchSection inp ⟨.RESEARCH, none⟩ r).1.st.themes = parsedThemes inp) := by
  simp only [researchSection, researchExcept, addMsg, commitR, setJob,
    WMState.advance_phase]
  repeat' split
  all_goals refine ⟨?_, ?_, ?_⟩
  all_goals first
    | (simp only [List.append_assoc]
       refine all_mem_append ?_
       simp_all [phaseDataOk, Phase.ge, Phase.idx, parsedThemes])
    | simp_all [phaseDataOk, Phase.ge, Phase.idx, parsedThemes]

/-- A snapshot still in INITIALIZATION trivially satisfies the
phase/data relation. -/
theorem phaseDataOk_of_initPhase {s : St}
    (h : s.job.current_phase = .INITIALIZATION) : phaseDataOk s := by
  simp [phaseDataOk, h, Phase.ge, Phase.idx]

/-- Two strings with different first characters stay different after
appending to the first. -/
theorem append_ne {a b : String} {c1 c2 : Char}
    (ha : a.data.head? = some c1) (hb : b.data.head? = some c2)
    (hne : c1 ≠ c2) (e : String) : a ++ e ≠ b := by
  intro h
  have hd := congrArg String.data h
  rw [String.data_append] at hd
  rw [← hd] at hb
  cases hda : a.data with
  | nil => rw [hda] at ha; cases ha
  | cons x xs =>
    rw [hda] at ha hb
    simp only [List.cons_append, List.head?_cons, Option.some.injEq] at ha hb
    exact hne (ha ▸ hb ▸ rfl)

/-- The research/analysis section never returns the zero-search-results
error. -/
theorem researchSection_ret_ne (inp : InitInputs) (wm1 : WMState) (r : Run) :
    (researchSection inp wm1 r).2 ≠ .errorRet "No search results found" := by
  rcases researchSection_ret inp wm1 r with h | ⟨e, h⟩ | h <;> rw [h]
  · simp
  · intro hc
    have := TaskRet.errorRet.inj hc
    exact append_ne (a := "Error in research phase: ")
      (b := "No search results found") rfl rfl (by decide) e this
  · simp

/-- The tail of the initial task only appends messages. -/
theorem afterSearch_msgs (inp : InitInputs) (acc : List SearchResult) (r : Run) :
    ∀ m ∈ r.st.job.messages, m ∈ (afterSearch inp acc r).1.st.job.messages := by
  intro m hm
  simp only [afterSearch, addMsg, commitR, setJob, WMState.advance_phase,
    WMState.init]
  split
  · simp [hm]
  · exact researchSection_msgs _ _ _ m (by simp [hm])

/-- The tail of the initial task fails with the zero-search-results
error exactly when the deduplicated aggregate is empty. -/
theorem afterSearch_ret (inp : InitInputs) (acc : List SearchResult) (r : Run) :
    ((afterSearch inp acc r).2 = .errorRet "No search results found" ↔
      deduplicate_results acc = []) := by
  simp only [afterSearch, addMsg, commitR, setJob, WMState.advance_phase,
    WMState.init]
  split
  · rename_i hlen
    simp only [List.length_eq_zero] at hlen
    simp [hlen]
  · rename_i hlen
    simp only [List.length_eq_zero] at hlen
    simp only [hlen, iff_false]
    exact researchSection_ret_ne _ _ _

/-- Trace invariant of the tail of the initial task, entered at
INITIALIZATION. -/
theorem afterSearch_trace (inp : InitInputs) (acc : List SearchResult) (r : Run)
    (hphase : r.st.job.current_phase = .INITIALIZATION) :
    (∀ s ∈ (afterSearch inp acc r).1.trace, s ∈ r.trace ∨
      (phaseDataOk s ∧ (s.themes = r.st.themes ∨ s.themes = parsedThemes inp))) ∧
    phaseDataOk (afterSearch inp acc r).1.st ∧
    ((afterSearch inp acc r).1.st.themes = r.st.themes ∨
      (afterSearch inp acc r).1.st.themes = parsedThemes inp) := by
  simp only [afterSearch, addMsg, commitR, setJob, WMState.advance_phase,
    WMState.init]
  split
  · refine ⟨?_, ?_, Or.inl (by simp)⟩
    · simp only [List.append_assoc]
      refine all_mem_append ?_
      simp [phaseDataOk, Phase.ge, Phase.idx, hphase]
    · exact phaseDataOk_of_initPhase (by simp [hphase])
  · refine ⟨?_, ?_, ?_⟩
    · intro s hs
      rcases (researchSection_trace inp _ (by simp) (by simp)).1 s hs with h | h
      · simp only [List.append_assoc] at h
        refine all_mem_append (b := r.trace) (Q := fun x => phaseDataOk x ∧
          (x.themes = r.st.themes ∨ x.themes = parsedThemes inp)) ?_ s h
        simp [phaseDataOk, Phase.ge, Phase.idx, hphase]
      · refine Or.inr ⟨h.1, ?_⟩
        refine h.2.imp (fun h2 => by rw [h2]) id
    · refine (researchSection_trace inp _ ?_ ?_).2.1 <;> simp
    · refine ((researchSection_trace inp _ ?_ ?_).2.2).imp
        (fun h2 => by rw [h2]) id <;> simp

/-- Final state of the research/analysis section when the three
completion calls succeed: the theme-parse outcome decides between the
parse-failure error and advancing to `awaiting_selection` with the
parsed themes persisted. -/
theorem researchSection_final (inp : InitInputs) (r : Run) (b a t : String)
    (hb : inp.brandBriefResp = .ok b) (ha : inp.searchAnalysisResp = .ok a)
    (ht : inp.themesResp = .ok t) :
    (pySplitAfter "## Content Themes" t = none →
      (researchSection inp ⟨.RESEARCH, none⟩ r).2 =
        .errorRet "❌ Failed to parse themes from AI response" ∧
      (researchSection inp ⟨.RESEARCH, none⟩ r).1.st.job.status = "error" ∧
      (researchSection inp ⟨.RESEARCH, none⟩ r).1.st.themes = r.st.themes) ∧
    (∀ raw, pySplitAfter "## Content Themes" t = some raw →
      (researchSection inp ⟨.RESEARCH, none⟩ r).2 = .awaiting ∧
      (researchSection inp ⟨.RESEARCH, none⟩ r).1.st.job.status =
        "awaiting_selection" ∧
      (researchSection inp ⟨.RESEARCH, none⟩ r).1.st.themes =
        mkThemes (findThemeMatches (pyStrip raw))) := by
  constructor
  · intro hnone
    simp [researchSection, hb, ha, ht, hnone, WMState.advance_phase, addMsg,
      commitR, setJob]
  · intro raw hsome
    simp [researchSection, hb, ha, ht, hsome, WMState.advance_phase, addMsg,
      commitR, setJob]

/-- Trace invariant of the keyword loop composed with the tail of the
initial task. -/
theorem loopAfter_trace (inp : InitInputs) (total : Nat) (kws : List String)
    (t0 : List ThemeRec) (r : Run)
    (hphase : r.st.job.current_phase = .INITIALIZATION)
    (hth : r.st.themes = t0)
    (htrace : ∀ s ∈ r.trace,
      phaseDataOk s ∧ (s.themes = t0 ∨ s.themes = parsedThemes inp)) :
    (∀ s ∈ (afterSearch inp (kwLoop inp.search total kws 0 [] r).1
        (kwLoop inp.search total kws 0 [] r).2).1.trace,
      phaseDataOk s ∧ (s.themes = t0 ∨ s.themes = parsedThemes inp)) ∧
    phaseDataOk (afterSearch inp (kwLoop inp.search total kws 0 [] r).1
      (kwLoop inp.search total kws 0 [] r).2).1.st ∧
    ((afterSearch inp (kwLoop inp.search total kws 0 [] r).1
        (kwLoop inp.search total kws 0 [] r).2).1.st.themes = t0 ∨
      (afterSearch inp (kwLoop inp.search total kws 0 [] r).1
        (kwLoop inp.search total kws 0 [] r).2).1.st.themes = parsedThemes inp) := by
  obtain ⟨l1, l2, l3, l4, l5, l6⟩ := kwLoop_spec inp.search total kws 0 [] r
  have hph2 : (kwLoop inp.search total kws 0 [] r).2.st.job.current_phase =
      .INITIALIZATION := l2.2.1.trans hphase
  have hth2 : (kwLoop inp.search total kws 0 [] r).2.st.themes = t0 :=
    l2.2.2.2.2.2.2.trans hth
  obtain ⟨a1, a2, a3⟩ := afterSearch_trace inp
    (kwLoop inp.search total kws 0 [] r).1
    (kwLoop inp.search total kws 0 [] r).2 hph2
  refine ⟨?_, a2, ?_⟩
  · intro s hs
    rcases a1 s hs with h | h
    · rcases l4 s h with h2 | h2
      · exact htrace s h2
      · exact ⟨phaseDataOk_of_initPhase (h2.2.1.trans hphase),
          Or.inl (h2.2.2.2.2.2.2.trans hth)⟩
    · exact ⟨h.1, h.2.imp (fun e => e.trans hth2) id⟩
  · exact a3.imp (fun e => e.trans hth2) id

/-- Trace invariant of the whole initial task: every committed snapshot
satisfies the phase/data relation, and themes are rewritten at most
once, atomically, to the parse result. -/
theorem process_trace (inp : InitInputs) (st0 : St)
    (hphase : st0.job.current_phase = .INITIALIZATION) :
    (∀ s ∈ (process_workflow_task inp st0).1.trace,
      phaseDataOk s ∧ (s.themes = st0.themes ∨ s.themes = parsedThemes inp)) ∧
    phaseDataOk (process_workflow_task inp st0).1.st ∧
    ((process_workflow_task inp st0).1.st.themes = st0.themes ∨
      (process_workflow_task inp st0).1.st.themes = parsedThemes inp) := by
  simp only [process_workflow_task, addMsg, commitR, setJob, WMState.init]
  split
  · refine ⟨?_, phaseDataOk_of_initPhase (by simp), Or.inl (by simp)⟩
    simp [phaseDataOk, Phase.ge, Phase.idx, hphase, WMState.init]
  · split
    · refine ⟨?_, phaseDataOk_of_initPhase (by simp), Or.inl (by simp)⟩
      simp [phaseDataOk, Phase.ge, Phase.idx, hphase, WMState.init]
    · refine loopAfter_trace inp _ _ st0.themes _ ?_ ?_ ?_ <;>
        simp [phaseDataOk, Phase.ge, Phase.idx, hphase, WMState.init]

/-- The failure message of each failing keyword survives into the final
message log of the initial task. -/
theorem process_msgs (inp : InitInputs) (st0 : St)
    (hscrape : inp.scrape.success = true) (hkey : inp.serpapiKeyPresent = true) :
    (∀ k ∈ st0.job.keywords, ∀ e, inp.search k = .error e →
      ("❌ Error searching for '" ++ k ++ "': " ++ e) ∈
        (process_workflow_task inp st0).1.st.job.messages) ∧
    (∀ k ∈ st0.job.keywords, inp.search k = .ok [] →
      ("⚠️ No results found for keyword: " ++ k) ∈
        (process_workflow_task inp st0).1.st.job.messages) := by
  simp only [process_workflow_task, addMsg, commitR, setJob, hscrape, hkey,
    Bool.not_true, Bool.false_eq_true, if_false]
  constructor
  · intro k hk e he
    apply afterSearch_msgs
    exact (kwLoop_spec inp.search _ _ 0 [] _).2.2.2.2.1 k hk e he
  · intro k hk he
    apply afterSearch_msgs
    exact (kwLoop_spec inp.search _ _ 0 [] _).2.2.2.2.2 k hk he

/-- The initial task returns the zero-search-results error exactly when
the deduplicated aggregate over all keywords is empty. -/
theorem process_ret (inp : InitInputs) (st0 : St)
    (hscrape : inp.scrape.success = true) (hkey : inp.serpapiKeyPresent = true) :
    ((process_workflow_task inp st0).2 = .errorRet "No search results found" ↔
      deduplicate_results (aggSearch inp.search st0.job.keywords) = []) := by
  simp only [process_workflow_task, addMsg, commitR, setJob, hscrape, hkey,
    Bool.not_true, Bool.false_eq_true, if_false]
  rw [afterSearch_ret]
  rw [(kwLoop_spec inp.search _ _ 0 [] _).1]
  simp

/-! ## Continuation-task lemmas -/

/-- Step 3 passes the cluster-step call counter through unchanged. -/
@[simp] theorem contStep3_clusterCalls (wm : WMState) (inp : ContInputs)
    (c i : Nat) (r : Run) : (contStep3 wm inp c i r).clusterCalls = c := by
  simp only [contStep3, contStepError]
  repeat' split
  all_goals rfl

/-- Step 3 passes the ideation-step call counter through unchanged. -/
@[simp] theorem contStep3_ideasCalls (wm : WMState) (inp : ContInputs)
    (c i : Nat) (r : Run) : (contStep3 wm inp c i r).ideasCalls = i := by
  simp only [contStep3, contStepError]
  repeat' split
  all_goals rfl

/-- Step 3 never touches `article_ideas`. -/
@[simp] theorem contStep3_article_ideas (wm : WMState) (inp : ContInputs)
    (c i : Nat) (r : Run) :
    (contStep3 wm inp c i r).run.st.job.article_ideas = r.st.job.article_ideas := by
  simp only [contStep3, contStepError, commitR, addMsg, setJob]
  repeat' split
  all_goals rfl

/-- Step 3 never returns the `skipped` result. -/
theorem contStep3_ret_ne (wm : WMState) (inp : ContInputs) (c i : Nat) (r : Run) :
    (contStep3 wm inp c i r).ret ≠ .skippedRet := by
  simp only [contStep3, contStepError]
  repeat' split
  all_goals simp

/-- When a valid final plan is already stored, step 3 makes no adapter
call. -/
theorem contStep3_planCalls (wm : WMState) (inp : ContInputs) (c i : Nat)
    (r : Run) (h : validText r.st.job.final_plan = true) :
    (contStep3 wm inp c i r).planCalls = 0 := by
  simp only [contStep3, contStepError, commitR, addMsg, setJob]
  split
  · rfl
  · simp_all

/-- When a valid final plan is already stored, step 3 leaves it in
place. -/
theorem contStep3_final_plan (wm : WMState) (inp : ContInputs) (c i : Nat)
    (r : Run) (h : validText r.st.job.final_plan = true) :
    (contStep3 wm inp c i r).run.st.job.final_plan = r.st.job.final_plan := by
  simp only [contStep3, contStepError, commitR, addMsg, setJob]
  split
  · rfl
  · simp_all

/-- Step 2 records the single cluster-step adapter call made before it. -/
@[simp] theorem contStep2_clusterCalls (wm : WMState) (inp : ContInputs)
    (r : Run) : (contStep2 wm inp r).clusterCalls = 1 := by
  simp only [contStep2, contStepError]
  repeat' split
  all_goals simp

/-- Step 2 never returns the `skipped` result. -/
theorem contStep2_ret_ne (wm : WMState) (inp : ContInputs) (r : Run) :
    (contStep2 wm inp r).ret ≠ .skippedRet := by
  simp only [contStep2, contStepError]
  split
  · exact contStep3_ret_ne _ _ _ _ _
  · split
    · simp
    · split
      · simp
      · exact contStep3_ret_ne _ _ _ _ _

/-- When valid article ideas are already stored, step 2 skips its
adapter call. -/
theorem contStep2_ideasCalls (wm : WMState) (inp : ContInputs) (r : Run)
    (h : validText r.st.job.article_ideas = true) :
    (contStep2 wm inp r).ideasCalls = 0 := by
  simp only [contStep2, contStepError, commitR, addMsg, setJob]
  split
  · simp
  · simp_all

/-- When valid article ideas are already stored, step 2 leaves them in
place. -/
theorem contStep2_article_ideas (wm : WMState) (inp : ContInputs) (r : Run)
    (h : validText r.st.job.article_ideas = true) :
    (contStep2 wm inp r).run.st.job.article_ideas = r.st.job.article_ideas := by
  simp only [contStep2, contStepError, commitR, addMsg, setJob]
  split
  · simp
  · simp_all

/-- Step 2 never touches `final_plan` before step 3, so a valid stored
final plan still short-circuits step 3's adapter call. -/
theorem contStep2_planCalls (wm : WMState) (inp : ContInputs) (r : Run)
    (h : validText r.st.job.final_plan = true) :
    (contStep2 wm inp r).planCalls = 0 := by
  simp only [contStep2, contStepError, commitR, addMsg, setJob]
  split
  · exact contStep3_planCalls _ _ _ _ _ (by simpa using h)
  · split
    · rfl
    · split
      · rfl
      · exact contStep3_planCalls _ _ _ _ _ (by simpa using h)

/-- When a valid final plan is already stored, the whole of step 2 and
step 3 leaves it in place. -/
theorem contStep2_final_plan (wm : WMState) (inp : ContInputs) (r : Run)
    (h : validText r.st.job.final_plan = true) :
    (contStep2 wm inp r).run.st.job.final_plan = r.st.job.final_plan := by
  simp only [contStep2, contStepError, commitR, addMsg, setJob]
  split
  · exact contStep3_final_plan _ _ _ _ _ (by simpa using h)
  · split
    · rfl
    · split
      · rfl
      · exact contStep3_final_plan _ _ _ _ _ (by simpa using h)

/-- `contSnap` through equal fields. -/
theorem contSnap_mono {st1 st2 s : St} (hth : st2.themes = st1.themes)
    (hph : st2.job.current_phase = st1.job.current_phase)
    (h : contSnap st2 s) : contSnap st1 s :=
  ⟨h.1.trans hth, h.2.imp (fun e => e.trans hph) id⟩

/-- Snapshot invariant of a step's inner error handler. -/
theorem contStepError_inv (stage e : String) (r : Run) (c i p : Nat) :
    contSnap r.st (contStepError stage e r c i p).run.st ∧
    ∀ s ∈ (contStepError stage e r c i p).run.trace,
      s ∈ r.trace ∨ contSnap r.st s := by
  simp only [contStepError, addMsg, commitR, setJob]
  refine ⟨by simp [contSnap], ?_⟩
  simp only [List.append_assoc]
  refine all_mem_append ?_
  simp [contSnap]

/-- Snapshot invariant of step 3. -/
theorem contStep3_inv (wm : WMState) (inp : ContInputs) (c i : Nat) (r : Run) :
    contSnap r.st (contStep3 wm inp c i r).run.st ∧
    ∀ s ∈ (contStep3 wm inp c i r).run.trace,
      s ∈ r.trace ∨ contSnap r.st s := by
  simp only [contStep3, contStepError, addMsg, commitR, setJob]
  repeat' split
  all_goals refine ⟨?_, ?_⟩
  all_goals first
    | (simp only [List.append_assoc]
       refine all_mem_append (Q := contSnap r.st) ?_
       simp_all [contSnap, validText, pyStrip])
    | simp_all [contSnap, validText, pyStrip]

/-- Snapshot invariant of step 2. -/
theorem contStep2_inv (wm : WMState) (inp : ContInputs) (r : Run) :
    contSnap r.st (contStep2 wm inp r).run.st ∧
    ∀ s ∈ (contStep2 wm inp r).run.trace, s ∈ r.trace ∨ contSnap r.st s := by
  simp only [contStep2, contStepError, addMsg, commitR, setJob]
  split
  · obtain ⟨f1, f2⟩ := contStep3_inv wm inp 1 0 _
    refine ⟨contSnap_mono (by simp) (by simp) f1, ?_⟩
    intro s hs
    rcases f2 s hs with h | h
    · simp only [List.append_assoc] at h
      refine all_mem_append (Q := contSnap r.st) ?_ s h
      simp [contSnap]
    · exact Or.inr (contSnap_mono (by simp) (by simp) h)
  · split
    · refine ⟨by simp [contSnap], ?_⟩
      simp only [List.append_assoc]
      refine all_mem_append ?_
      simp [contSnap]
    · split
      · refine ⟨by simp [contSnap], ?_⟩
        simp only [List.append_assoc]
        refine all_mem_append ?_
        simp [contSnap]
      · obtain ⟨f1, f2⟩ := contStep3_inv wm inp 1 1 _
        refine ⟨contSnap_mono (by simp) (by simp) f1, ?_⟩
        intro s hs
        rcases f2 s hs with h | h
        · simp only [List.append_assoc] at h
          refine all_mem_append (Q := contSnap r.st) ?_ s h
          simp [contSnap]
        · exact Or.inr (contSnap_mono (by simp) (by simp) h)

/-- Trace invariant of the continuation task: themes are never touched,
and the persisted phase only changes in the completion commit, which
carries a validated final plan. -/
theorem cont_trace_inv (inp : ContInputs) (st : St) :
    contSnap st (continue_workflow_after_selection_task inp st).run.st ∧
    ∀ s ∈ (continue_workflow_after_selection_task inp st).run.trace,
      contSnap st s := by
  simp only [continue_workflow_after_selection_task]
  split
  · refine ⟨⟨rfl, Or.inl rfl⟩, ?_⟩
    simp [commitR, contSnap]
  · split
    · refine ⟨by simp [addMsg, commitR, setJob, contSnap], ?_⟩
      intro s hs
      simp only [addMsg, commitR, setJob, List.nil_append, List.append_assoc,
        List.mem_append, List.mem_singleton] at hs
      rcases hs with hs | hs | hs <;> (subst hs; simp [contSnap])
    · split
      · refine ⟨contSnap_mono (by simp [addMsg, commitR, setJob])
          (by simp [addMsg, commitR, setJob])
          (contStepError_inv _ _ _ 1 0 0).1, ?_⟩
        intro s hs
        rcases (contStepError_inv _ _ _ 1 0 0).2 s hs with h | h
        · simp only [addMsg, commitR, setJob, List.nil_append, List.append_assoc,
            List.mem_append, List.mem_singleton] at h
          rcases h with h | h | h | h <;> (subst h; simp [contSnap])
        · exact contSnap_mono (by simp [addMsg, commitR, setJob])
            (by simp [addMsg, commitR, setJob]) h
      · split
        · refine ⟨contSnap_mono (by simp [addMsg, commitR, setJob])
            (by simp [addMsg, commitR, setJob])
            (contStepError_inv _ _ _ 1 0 0).1, ?_⟩
          intro s hs
          rcases (contStepError_inv _ _ _ 1 0 0).2 s hs with h | h
          · simp only [addMsg, commitR, setJob, List.nil_append, List.append_assoc,
              List.mem_append, List.mem_singleton] at h
            rcases h with h | h | h | h <;> (subst h; simp [contSnap])
          · exact contSnap_mono (by simp [addMsg, commitR, setJob])
              (by simp [addMsg, commitR, setJob]) h
        · refine ⟨contSnap_mono (by simp [addMsg, commitR, setJob])
            (by simp [addMsg, commitR, setJob]) (contStep2_inv _ inp _).1, ?_⟩
          intro s hs
          rcases (contStep2_inv _ inp _).2 s hs with h | h
          · simp only [addMsg, commitR, setJob, List.nil_append, List.append_assoc,
              List.mem_append, List.mem_singleton] at h
            rcases h with h | h | h | h | h | h <;> (subst h; simp [contSnap])
          · exact contSnap_mono (by simp [addMsg, commitR, setJob])
              (by simp [addMsg, commitR, setJob]) h

/-! ## Selection and selection-count lemmas -/

/-- A theme list with no selected entry has selection count zero. -/
theorem selCount_zero {ts : List ThemeRec}
    (h : ts.any (fun t => t.is_selected) = false) : selCount ts = 0 := by
  have h2 := List.any_eq_false.mp h
  simp only [selCount]
  rw [List.filter_eq_nil_iff.mpr h2]
  rfl

/-- Freshly created theme rows are all unselected. -/
theorem selCount_mkThemes (ms : List (String × String)) :
    selCount (mkThemes ms) = 0 := by
  induction ms with
  | nil => rfl
  | cons m rest ih =>
    simp only [mkThemes, List.map_cons] at ih ⊢
    simp only [selCount, List.filter_cons] at ih ⊢
    simpa using ih

/-- The theme rows the initial task persists are all unselected. -/
theorem selCount_parsedThemes (inp : InitInputs) :
    selCount (parsedThemes inp) = 0 := by
  simp only [parsedThemes]
  repeat' split
  all_goals first
    | exact selCount_mkThemes _
    | rfl

/-- Selecting one theme in a list with no selected entry leaves at most
one selected entry. -/
theorem selCount_modify_le_one (ts : List ThemeRec)
    (h : ts.any (fun t => t.is_selected) = false) (n : Nat) :
    selCount (ts.modify (fun t => { t with is_selected := true }) n) ≤ 1 := by
  induction ts generalizing n with
  | nil =>
    cases n <;> simp [selCount]
  | cons a rest ih =>
    have ha := List.any_eq_false.mp h
    have hrest : rest.any (fun t => t.is_selected) = false :=
      List.any_eq_false.mpr fun t ht => ha t (List.mem_cons_of_mem _ ht)
    cases n with
    | zero =>
      show selCount ({ a with is_selected := true } :: rest) ≤ 1
      simp only [selCount, List.filter_cons]
      rw [if_pos (by simp)]
      have := selCount_zero hrest
      simp only [selCount] at this
      simp [this]
    | succ n =>
      show selCount (a :: rest.modify (fun t => { t with is_selected := true }) n) ≤ 1
      simp only [selCount, List.filter_cons]
      have hna : a.is_selected = false := by
        have := ha a (List.mem_cons_self _ _)
        simpa using this
      rw [if_neg (by simp [hna])]
      exact ih hrest n

/-! ## Final-state lemmas for the theme-generation step -/

/-- Final state of the tail of the initial task when the three
completion calls succeed and search produced results. -/
theorem afterSearch_final (inp : InitInputs) (acc : List SearchResult)
    (r : Run) (b a t : String)
    (hb : inp.brandBriefResp = .ok b) (ha : inp.searchAnalysisResp = .ok a)
    (ht : inp.themesResp = .ok t)
    (hdedup : deduplicate_results acc ≠ []) :
    (pySplitAfter "## Content Themes" t = none →
      (afterSearch inp acc r).2 =
        .errorRet "❌ Failed to parse themes from AI response" ∧
      (afterSearch inp acc r).1.st.job.status = "error" ∧
      (afterSearch inp acc r).1.st.themes = r.st.themes) ∧
    (∀ raw, pySplitAfter "## Content Themes" t = some raw →
      (afterSearch inp acc r).2 = .awaiting ∧
      (afterSearch inp acc r).1.st.job.status = "awaiting_selection" ∧
      (afterSearch inp acc r).1.st.themes =
        mkThemes (findThemeMatches (pyStrip raw))) := by
  simp only [afterSearch, addMsg, commitR, setJob, WMState.advance_phase,
    WMState.init]
  rw [if_neg (by simpa [List.length_eq_zero] using hdedup)]
  constructor
  · intro hnone
    refine ⟨((researchSection_final inp _ b a t hb ha ht).1 hnone).1,
      ((researchSection_final inp _ b a t hb ha ht).1 hnone).2.1,
      (((researchSection_final inp _ b a t hb ha ht).1 hnone).2.2).trans
        (by simp)⟩
  · intro raw hsome
    exact ⟨((researchSection_final inp _ b a t hb ha ht).2 raw hsome).1,
      ((researchSection_final inp _ b a t hb ha ht).2 raw hsome).2.1,
      ((researchSection_final inp _ b a t hb ha ht).2 raw hsome).2.2⟩

/-- Final state of the keyword loop composed with the tail of the
initial task, when the completion calls succeed. -/
theorem loopAfter_final (inp : InitInputs) (total : Nat) (kws : List String)
    (r : Run) (b a t : String)
    (hb : inp.brandBriefResp = .ok b) (ha : inp.searchAnalysisResp = .ok a)
    (ht : inp.themesResp = .ok t)
    (hdedup : deduplicate_results (aggSearch inp.search kws) ≠ []) :
    (pySplitAfter "## Content Themes" t = none →
      (afterSearch inp (kwLoop inp.search total kws 0 [] r).1
        (kwLoop inp.search total kws 0 [] r).2).2 =
          .errorRet "❌ Failed to parse themes from AI response" ∧
      (afterSearch inp (kwLoop inp.search total kws 0 [] r).1
        (kwLoop inp.search total kws 0 [] r).2).1.st.job.status = "error" ∧
      (afterSearch inp (kwLoop inp.search total kws 0 [] r).1
        (kwLoop inp.search total kws 0 [] r).2).1.st.themes = r.st.themes) ∧
    (∀ raw, pySplitAfter "## Content Themes" t = some raw →
      (afterSearch inp (kwLoop inp.search total kws 0 [] r).1
        (kwLoop inp.search total kws 0 [] r).2).2 = .awaiting ∧
      (afterSearch inp (kwLoop inp.search total kws 0 [] r).1
        (kwLoop inp.search total kws 0 [] r).2).1.st.job.status =
          "awaiting_selection" ∧
      (afterSearch inp (kwLoop inp.search total kws 0 [] r).1
        (kwLoop inp.search total kws 0 [] r).2).1.st.themes =
          mkThemes (findThemeMatches (pyStrip raw))) := by
  have hacc : (kwLoop inp.search total kws 0 [] r).1 = aggSearch inp.search kws := by
    rw [(kwLoop_spec inp.search total kws 0 [] r).1]
    simp
  have hthm : (kwLoop inp.search total kws 0 [] r).2.st.themes = r.st.themes :=
    (kwLoop_spec inp.search total kws 0 [] r).2.1.2.2.2.2.2.2
  have hd2 : deduplicate_results (kwLoop inp.search total kws 0 [] r).1 ≠ [] := by
    rw [hacc]; exact hdedup
  obtain ⟨f1, f2⟩ := afterSearch_final inp (kwLoop inp.search total kws 0 [] r).1
    (kwLoop inp.search total kws 0 [] r).2 b a t hb ha ht hd2
  exact ⟨fun hnone => ⟨(f1 hnone).1, (f1 hnone).2.1, (f1 hnone).2.2.trans hthm⟩, f2⟩

/-! ## Claim theorems -/

set_option maxRecDepth 100000

/-- C8: `deduplicate_results` deduplicates by link: the output is a
sublist of the input (kept elements in first-seen relative order), every
kept element is the first occurrence of its link in the input, every
first occurrence of a non-empty link is kept, and the function is
idempotent.  (Entries with an absent or empty link are outside the
per-link clauses; claim C10's theorem settles their fate.) -/
theorem claim_C8 (xs : List SearchResult) :
    (deduplicate_results xs).Sublist xs ∧
    deduplicate_results (deduplicate_results xs) = deduplicate_results xs ∧
    (∀ r ∈ deduplicate_results xs, ∃ i, ∃ hi : i < xs.length, xs.get ⟨i, hi⟩ = r ∧
      ∀ j (hj : j < xs.length), j < i → getLink (xs.get ⟨j, hj⟩) ≠ getLink r) ∧
    (∀ i (hi : i < xs.length), getLink (xs.get ⟨i, hi⟩) ≠ "" →
      (∀ j (hj : j < xs.length), j < i →
        getLink (xs.get ⟨j, hj⟩) ≠ getLink (xs.get ⟨i, hi⟩)) →
      xs.get ⟨i, hi⟩ ∈ deduplicate_results xs) := by
  refine ⟨dedupAux_sublist [] xs, deduplicate_results_idem xs, ?_, ?_⟩
  · intro r hr
    exact dedupAux_first_of_mem [] xs r hr
  · intro i hi hne hfirst
    exact dedupAux_keeps_first [] xs i hi hne (by simp) hfirst

/-- Witness for C8 at a concrete list with a duplicated link. -/
theorem claim_C8_witness :
    deduplicate_results (deduplicate_results [linked, noLink, linkedDup]) =
      deduplicate_results [linked, noLink, linkedDup] ∧
    [linked, noLink, linkedDup].get ⟨0, by decide⟩ ∈
      deduplicate_results [linked, noLink, linkedDup] :=
  ⟨(claim_C8 [linked, noLink, linkedDup]).2.1,
   (claim_C8 [linked, noLink, linkedDup]).2.2.2 0 (by decide) (by decide)
     (fun j hj hlt => absurd hlt (Nat.not_lt_zero j))⟩

/-- C10: `deduplicate_results` silently drops every entry whose `link`
is missing or empty — no such entry ever appears in the output — so the
output can be shorter than the number of distinct input entries. -/
theorem claim_C10 :
    (∀ (xs : List SearchResult) (r : SearchResult),
      r ∈ deduplicate_results xs → getLink r ≠ "") ∧
    deduplicate_results [noLink, emptyLink, linked] = [linked] ∧
    (deduplicate_results [noLink, emptyLink, linked]).length <
      ([noLink, emptyLink, linked] : List SearchResult).length ∧
    ([noLink, emptyLink, linked] : List SearchResult).Nodup := by
  refine ⟨fun xs r h => (dedupAux_mem_link h).1, by decide, by decide, by decide⟩

/-- Witness for C10's universally quantified clause at a concrete
kept entry. -/
theorem claim_C10_witness : getLink linked ≠ "" :=
  claim_C10.1 [noLink, emptyLink, linked] linked (by decide)

/-- C1: the claim (and the spec) require the continuation task to reset
`in_progress = false` on every exit path, but the code releases it only
on successful completion and in the outer exception handler.  At the
failing inputs below, the task wins the claim and then exits through the
missing-selected-theme validation failure (respectively through the
content-cluster step's error return) with `in_progress` still true. -/
theorem claim_C1 :
    claimRows stNoSel = 1 ∧
    (continue_workflow_after_selection_task contInputsOk stNoSel).ret =
      .errorRet "No theme was selected" ∧
    (continue_workflow_after_selection_task contInputsOk stNoSel).run.st.job.status =
      "error" ∧
    (continue_workflow_after_selection_task contInputsOk stNoSel).run.st.job.in_progress =
      true ∧
    claimRows stSel = 1 ∧
    (continue_workflow_after_selection_task ⟨.error "boom", .ok longText, .ok longText⟩
      stSel).ret = .errorRet "boom" ∧
    (continue_workflow_after_selection_task ⟨.error "boom", .ok longText, .ok longText⟩
      stSel).run.st.job.status = "error" ∧
    (continue_workflow_after_selection_task ⟨.error "boom", .ok longText, .ok longText⟩
      stSel).run.st.job.in_progress = true :=
  ⟨rfl, rfl, rfl, rfl, rfl, rfl, rfl, rfl⟩

/-- C2 counterexample: re-running the continuation task on a job whose
`content_cluster` already holds a valid (≥ 100 characters) result still
invokes the text-completion adapter for the content-cluster step — the
adapter call count is 1, not the 0 the claim requires. -/
theorem claim_C2_counterexample :
    validText (some longText) = true ∧
    validText jobContCluster.content_cluster = true ∧
    (continue_workflow_after_selection_task contInputsOk
      ⟨jobContCluster, stSel.themes⟩).clusterCalls = 1 :=
  ⟨rfl, rfl, rfl⟩

/-- C2 amended: the idempotency guard holds for the article-ideas and
final-plan steps — a stored valid result suppresses the adapter call and
is left in place — but the content-cluster step has no such guard and
always re-invokes the adapter (see the counterexample). -/
theorem claim_C2 (st : St) (inp : ContInputs) :
    (validText st.job.article_ideas = true →
      (continue_workflow_after_selection_task inp st).ideasCalls = 0 ∧
      (continue_workflow_after_selection_task inp st).run.st.job.article_ideas =
        st.job.article_ideas) ∧
    (validText st.job.final_plan = true →
      (continue_workflow_after_selection_task inp st).planCalls = 0 ∧
      (continue_workflow_after_selection_task inp st).run.st.job.final_plan =
        st.job.final_plan) := by
  constructor
  · intro h
    simp only [continue_workflow_after_selection_task]
    split
    · simp [commitR]
    · split
      · simp [contStepError, commitR, addMsg, setJob]
      · split
        · simp [contStepError, commitR, addMsg, setJob]
        · split
          · simp [contStepError, commitR, addMsg, setJob]
          · refine ⟨contStep2_ideasCalls _ _ _ ?_, ?_⟩
            · simpa [commitR, addMsg, setJob] using h
            · rw [contStep2_article_ideas _ _ _
                (by simpa [commitR, addMsg, setJob] using h)]
              simp [commitR, addMsg, setJob]
  · intro h
    simp only [continue_workflow_after_selection_task]
    split
    · simp [commitR]
    · split
      · simp [contStepError, commitR, addMsg, setJob]
      · split
        · simp [contStepError, commitR, addMsg, setJob]
        · split
          · simp [contStepError, commitR, addMsg, setJob]
          · refine ⟨contStep2_planCalls _ _ _ ?_, ?_⟩
            · simpa [commitR, addMsg, setJob] using h
            · rw [contStep2_final_plan _ _ _
                (by simpa [commitR, addMsg, setJob] using h)]
              simp [commitR, addMsg, setJob]

/-- Witness for C2 at a job that already stores valid article ideas and
a valid final plan. -/
theorem claim_C2_witness :
    validText jobContIdeasPlan.article_ideas = true ∧
    (continue_workflow_after_selection_task contInputsOk
      ⟨jobContIdeasPlan, stSel.themes⟩).ideasCalls = 0 ∧
    (continue_workflow_after_selection_task contInputsOk
      ⟨jobContIdeasPlan, stSel.themes⟩).planCalls = 0 :=
  ⟨rfl,
   ((claim_C2 ⟨jobContIdeasPlan, stSel.themes⟩ contInputsOk).1 rfl).1,
   ((claim_C2 ⟨jobContIdeasPlan, stSel.themes⟩ contInputsOk).2 rfl).1⟩

/-- C3: when `in_progress` is already true, the atomic conditional
claim matches zero rows and the continuation task returns the non-error
`skipped` result without mutating any job or theme state (and without
any adapter call); the claim affects exactly one row precisely when
`in_progress` was false. -/
theorem claim_C3 (st : St) (inp : ContInputs) :
    (st.job.in_progress = true →
      claimRows st = 0 ∧
      (continue_workflow_after_selection_task inp st).ret = .skippedRet ∧
      (continue_workflow_after_selection_task inp st).run.st = st ∧
      (continue_workflow_after_selection_task inp st).clusterCalls = 0 ∧
      (continue_workflow_after_selection_task inp st).ideasCalls = 0 ∧
      (continue_workflow_after_selection_task inp st).planCalls = 0) ∧
    (st.job.in_progress = false →
      (continue_workflow_after_selection_task inp st).ret ≠ .skippedRet) ∧
    (claimRows st = 1 ↔ st.job.in_progress = false) := by
  refine ⟨?_, ?_, ?_⟩
  · intro h
    have h0 : claimRows st = 0 := by simp [claimRows, h]
    simp [continue_workflow_after_selection_task, h0, commitR]
  · intro h
    have h1 : ¬ claimRows st = 0 := by simp [claimRows, h]
    simp only [continue_workflow_after_selection_task, if_neg h1]
    split
    · simp
    · simp only [contStepError]
      split
      · simp
      · split
        · simp
        · exact contStep2_ret_ne _ _ _
  · simp [claimRows]

/-- Witness for C3 at a concrete already-claimed state. -/
theorem claim_C3_witness :
    claimRows ⟨{ jobCont with in_progress := true }, stSel.themes⟩ = 0 ∧
    (continue_workflow_after_selection_task contInputsOk
      ⟨{ jobCont with in_progress := true }, stSel.themes⟩).ret = .skippedRet :=
  ⟨(claim_C3 ⟨{ jobCont with in_progress := true }, stSel.themes⟩ contInputsOk).1 rfl |>.1,
   (claim_C3 ⟨{ jobCont with in_progress := true }, stSel.themes⟩ contInputsOk).1 rfl |>.2.1⟩

/-- C4 counterexample: a theme response that contains the
`## Content Themes` marker but yields zero parsable themes does NOT end
the job in `error` — the initial task persists zero themes and still
advances to `awaiting_selection`. -/
theorem claim_C4_counterexample :
    (pySplitAfter "## Content Themes" zeroThemesResp).isSome = true ∧
    findThemeMatches
      (pyStrip ((pySplitAfter "## Content Themes" zeroThemesResp).getD "")) = [] ∧
    (process_workflow_task inpC4 ⟨jobFresh, []⟩).2 = .awaiting ∧
    (process_workflow_task inpC4 ⟨jobFresh, []⟩).1.st.job.status =
      "awaiting_selection" ∧
    (process_workflow_task inpC4 ⟨jobFresh, []⟩).1.st.themes = [] :=
  ⟨rfl, rfl, rfl, rfl, rfl⟩

/-- C4 amended: the terminal parse failure occurs exactly when the
`## Content Themes` marker is absent from the theme response; when the
marker is present the parsed themes — possibly zero of them — are
persisted all-or-nothing (every committed snapshot holds either the old
theme rows or exactly the full parse result) and the job advances to
`awaiting_selection` even with zero themes. -/
theorem claim_C4 (st0 : St) (inp : InitInputs) (b a t : String)
    (hphase : st0.job.current_phase = .INITIALIZATION)
    (hscrape : inp.scrape.success = true) (hkey : inp.serpapiKeyPresent = true)
    (hb : inp.brandBriefResp = .ok b) (ha : inp.searchAnalysisResp = .ok a)
    (ht : inp.themesResp = .ok t)
    (hdedup : deduplicate_results (aggSearch inp.search st0.job.keywords) ≠ []) :
    (pySplitAfter "## Content Themes" t = none →
      (process_workflow_task inp st0).2 =
        .errorRet "❌ Failed to parse themes from AI response" ∧
      (process_workflow_task inp st0).1.st.job.status = "error" ∧
      (process_workflow_task inp st0).1.st.themes = st0.themes) ∧
    (∀ raw, pySplitAfter "## Content Themes" t = some raw →
      (process_workflow_task inp st0).2 = .awaiting ∧
      (process_workflow_task inp st0).1.st.job.status = "awaiting_selection" ∧
      (process_workflow_task inp st0).1.st.themes =
        mkThemes (findThemeMatches (pyStrip raw)) ∧
      ∀ s ∈ (process_workflow_task inp st0).1.trace,
        s.themes = st0.themes ∨
          s.themes = mkThemes (findThemeMatches (pyStrip raw))) := by
  have hparsed : ∀ raw, pySplitAfter "## Content Themes" t = some raw →
      parsedThemes inp = mkThemes (findThemeMatches (pyStrip raw)) := by
    intro raw h
    simp [parsedThemes, ht, h]
  have htr := (process_trace inp st0 hphase).1
  constructor
  · intro hnone
    simp only [process_workflow_task, addMsg, commitR, setJob, hscrape, hkey,
      Bool.not_true, Bool.false_eq_true, if_false]
    refine ⟨((loopAfter_final inp _ _ _ b a t hb ha ht ?_).1 hnone).1,
      ((loopAfter_final inp _ _ _ b a t hb ha ht ?_).1 hnone).2.1,
      (((loopAfter_final inp _ _ _ b a t hb ha ht ?_).1 hnone).2.2).trans
        (by simp)⟩ <;> simpa using hdedup
  · intro raw hsome
    refine ⟨?_, ?_, ?_, ?_⟩
    · simp only [process_workflow_task, addMsg, commitR, setJob, hscrape, hkey,
        Bool.not_true, Bool.false_eq_true, if_false]
      refine ((loopAfter_final inp _ _ _ b a t hb ha ht ?_).2 raw hsome).1
      simpa using hdedup
    · simp only [process_workflow_task, addMsg, commitR, setJob, hscrape, hkey,
        Bool.not_true, Bool.false_eq_true, if_false]
      refine ((loopAfter_final inp _ _ _ b a t hb ha ht ?_).2 raw hsome).2.1
      simpa using hdedup
    · simp only [process_workflow_task, addMsg, commitR, setJob, hscrape, hkey,
        Bool.not_true, Bool.false_eq_true, if_false]
      refine ((loopAfter_final inp _ _ _ b a t hb ha ht ?_).2 raw hsome).2.2
      simpa using hdedup
    · intro s hs
      exact (htr s hs).2.imp id (fun e => e.trans (hparsed raw hsome))

/-- Witness for C4 at the two-theme response of spec §8 scenario B. -/
theorem claim_C4_witness :
    (process_workflow_task initInputsOk ⟨jobFresh, []⟩).2 = .awaiting ∧
    (process_workflow_task initInputsOk ⟨jobFresh, []⟩).1.st.themes =
      mkThemes (findThemeMatches (pyStrip "\n1. **T1** d1\n2. **T2** d2")) :=
  ⟨((claim_C4 ⟨jobFresh, []⟩ initInputsOk "## Brand Brief\nBB"
      "## Search Results Analysis\nSA"
      "## Content Themes\n1. **T1** d1\n2. **T2** d2"
      rfl rfl rfl rfl rfl rfl (by decide)).2
      "\n1. **T1** d1\n2. **T2** d2" rfl).1,
   ((claim_C4 ⟨jobFresh, []⟩ initInputsOk "## Brand Brief\nBB"
      "## Search Results Analysis\nSA"
      "## Content Themes\n1. **T1** d1\n2. **T2** d2"
      rfl rfl rfl rfl rfl rfl (by decide)).2
      "\n1. **T1** d1\n2. **T2** d2" rfl).2.2.1⟩

/-- C5 counterexample: the RESEARCH phase is committed before the brand
brief is persisted (and ANALYSIS before the themes), refuting the
claimed commit order at its own examples. -/
theorem claim_C5_counterexample :
    ((process_workflow_task initInputsOk ⟨jobFresh, []⟩).1.trace.any
      (fun s => s.job.current_phase == .RESEARCH && s.job.brand_brief == none)) =
        true ∧
    ((process_workflow_task initInputsOk ⟨jobFresh, []⟩).1.trace.any
      (fun s => s.job.current_phase == .ANALYSIS && s.themes.isEmpty)) = true ∧
    (process_workflow_task initInputsOk ⟨jobFresh, []⟩).1.st.themes.length = 2 :=
  ⟨rfl, rfl, rfl⟩

/-- C5 amended: the persisted phase never runs ahead of the artifacts of
*completed* phases — every committed snapshot at or past RESEARCH has
search results, at or past ANALYSIS has the brand brief and the search
analysis, and at or past THEME_SELECTION has the regenerated themes; and
in the continuation task every committed snapshot either still has the
start state's persisted phase or already carries a final plan that
passed the validity check (the phase only moves in a commit whose final
plan is validated).  However, the phase being *entered* is committed
before the artifacts computed during it (RESEARCH before the brand
brief — see the counterexample), contrary to the claim. -/
theorem claim_C5 (st0 : St) (inp : InitInputs) (st1 : St) (inp1 : ContInputs)
    (hphase : st0.job.current_phase = .INITIALIZATION) :
    (∀ s ∈ (process_workflow_task inp st0).1.trace, phaseDataOk s) ∧
    (∀ s ∈ (continue_workflow_after_selection_task inp1 st1).run.trace,
      s.job.current_phase = st1.job.current_phase ∨
        validText s.job.final_plan = true) :=
  ⟨fun s hs => ((process_trace inp st0 hphase).1 s hs).1,
   fun s hs => ((cont_trace_inv inp1 st1).2 s hs).2⟩

/-- Witness for C5 at a concrete initial-task run and a concrete
continuation run; the chosen continuation snapshot has a changed
persisted phase, so the theorem's disjunction is exercised in its
validated-final-plan branch. -/
theorem claim_C5_witness :
    phaseDataOk ((process_workflow_task initInputsOk ⟨jobFresh, []⟩).1.trace.get
      ⟨0, by decide⟩) ∧
    (((continue_workflow_after_selection_task contInputsOk stSel).run.trace.get
        ⟨12, by decide⟩).job.current_phase = stSel.job.current_phase ∨
      validText ((continue_workflow_after_selection_task contInputsOk
        stSel).run.trace.get ⟨12, by decide⟩).job.final_plan = true) ∧
    ((continue_workflow_after_selection_task contInputsOk stSel).run.trace.get
      ⟨12, by decide⟩).job.current_phase ≠ stSel.job.current_phase :=
  ⟨(claim_C5 ⟨jobFresh, []⟩ initInputsOk stSel contInputsOk rfl).1
      _ (List.get_mem _ _ _),
   (claim_C5 ⟨jobFresh, []⟩ initInputsOk stSel contInputsOk rfl).2
      _ (List.get_mem _ _ _),
   by decide⟩

/-- C6: the theme-selection endpoint is rejected with no state mutation
and no continuation enqueue in each of the four cases: status not
`awaiting_selection`, `in_progress` set, submitted index out of
`[1, len(themes)]`, and a theme already selected. -/
theorem claim_C6 (st : St) (req : SelReq) :
    (st.job.status ≠ "awaiting_selection" →
      (theme_selection st req).resp ≠ .okResp ∧
      (theme_selection st req).st = st ∧
      (theme_selection st req).enqueued = false) ∧
    (st.job.in_progress = true →
      (theme_selection st req).resp ≠ .okResp ∧
      (theme_selection st req).st = st ∧
      (theme_selection st req).enqueued = false) ∧
    (∀ ns, req.themeNumber = some ns → pyIsdigit ns = true →
      (pyToNat ns < 1 ∨ st.themes.length < pyToNat ns) →
      (theme_selection st req).resp ≠ .okResp ∧
      (theme_selection st req).st = st ∧
      (theme_selection st req).enqueued = false) ∧
    ((∃ th ∈ st.themes, th.is_selected = true) →
      (theme_selection st req).resp ≠ .okResp ∧
      (theme_selection st req).st = st ∧
      (theme_selection st req).enqueued = false) := by
  refine ⟨?_, ?_, ?_, ?_⟩
  · intro h
    simp only [theme_selection]
    rw [if_pos (by simp [h])]
    exact ⟨by simp, rfl, rfl⟩
  · intro h
    simp only [theme_selection]
    rw [if_pos (by simp [h])]
    exact ⟨by simp, rfl, rfl⟩
  · intro ns hs hdig hrange
    simp only [theme_selection, hs]
    repeat' split
    all_goals first
      | exact ⟨by simp, rfl, rfl⟩
      | (exfalso; rcases hrange with hr | hr <;> omega)
  · intro hselth
    have hany : st.themes.any (fun th => th.is_selected) = true := by
      rcases hselth with ⟨th, hth, hsel⟩
      exact List.any_eq_true.mpr ⟨th, hth, by simp [hsel]⟩
    simp only [theme_selection]
    repeat' split
    all_goals exact ⟨by simp, rfl, rfl⟩

/-- Witness for C6: a wrong-status call, an in-progress call, an
out-of-range index and a double selection are each rejected without
mutation. -/
theorem claim_C6_witness :
    ((theme_selection stProcTwo ⟨true, some "1"⟩).st = stProcTwo ∧
      (theme_selection stProcTwo ⟨true, some "1"⟩).enqueued = false) ∧
    (theme_selection ⟨{ jobAwait with in_progress := true }, stAwaitTwo.themes⟩
      ⟨true, some "1"⟩).st =
        ⟨{ jobAwait with in_progress := true }, stAwaitTwo.themes⟩ ∧
    (theme_selection stAwaitTwo ⟨true, some "5"⟩).st = stAwaitTwo ∧
    (theme_selection stChosen ⟨true, some "1"⟩).st = stChosen :=
  ⟨⟨((claim_C6 stProcTwo ⟨true, some "1"⟩).1 (by decide)).2.1,
    ((claim_C6 stProcTwo ⟨true, some "1"⟩).1 (by decide)).2.2⟩,
   ((claim_C6 ⟨{ jobAwait with in_progress := true }, stAwaitTwo.themes⟩
      ⟨true, some "1"⟩).2.1 rfl).2.1,
   ((claim_C6 stAwaitTwo ⟨true, some "5"⟩).2.2.1 "5" rfl rfl
      (by decide)).2.1,
   ((claim_C6 stChosen ⟨true, some "1"⟩).2.2.2 ⟨⟨"Chosen", "x", true⟩,
      by decide, rfl⟩).2.1⟩

/-- C7: in the keyword loop a single keyword's failure (exception or
empty result) is non-fatal — its failure message is logged and the loop
continues — and the task returns the zero-search-results error exactly
when the deduplicated aggregate over all keywords is empty. -/
theorem claim_C7 (st0 : St) (inp : InitInputs)
    (hscrape : inp.scrape.success = true)
    (hkey : inp.serpapiKeyPresent = true) :
    (∀ k ∈ st0.job.keywords, ∀ e, inp.search k = .error e →
      ("❌ Error searching for '" ++ k ++ "': " ++ e) ∈
        (process_workflow_task inp st0).1.st.job.messages) ∧
    (∀ k ∈ st0.job.keywords, inp.search k = .ok [] →
      ("⚠️ No results found for keyword: " ++ k) ∈
        (process_workflow_task inp st0).1.st.job.messages) ∧
    ((process_workflow_task inp st0).2 = .errorRet "No search results found" ↔
      deduplicate_results (aggSearch inp.search st0.job.keywords) = []) :=
  ⟨(process_msgs inp st0 hscrape hkey).1,
   (process_msgs inp st0 hscrape hkey).2,
   process_ret inp st0 hscrape hkey⟩

/-- Witness for C7: keyword `b` raises, its message is logged, and the
run does not fail for lack of search results. -/
theorem claim_C7_witness :
    ("❌ Error searching for 'b': boom") ∈
      (process_workflow_task inpC7 stC7).1.st.job.messages ∧
    ¬ (process_workflow_task inpC7 stC7).2 =
      .errorRet "No search results found" :=
  ⟨(claim_C7 stC7 inpC7 rfl rfl).1 "b" (by decide) "boom" rfl,
   fun h => absurd ((claim_C7 stC7 inpC7 rfl rfl).2.2.mp h) (by decide)⟩

/-- C9 counterexample: re-running the initial task on a job whose theme
is already selected deletes the selected theme — selection is not final
against the core's own operations. -/
theorem claim_C9_counterexample :
    (∃ th ∈ stChosen.themes, th.is_selected = true) ∧
    (process_workflow_task initInputsOk stChosen).1.st.themes =
      [⟨"T1", "d1", false⟩, ⟨"T2", "d2", false⟩] ∧
    (⟨"Chosen", "x", true⟩ : ThemeRec) ∉
      (process_workflow_task initInputsOk stChosen).1.st.themes := by
  refine ⟨⟨⟨"Chosen", "x", true⟩, by decide, rfl⟩, rfl, by decide⟩

/-- C9 amended: at most one theme per job is ever selected — the
selection endpoint preserves it, the continuation task never touches
theme rows at all (in any committed snapshot), and the initial task only
ever rewrites themes to an all-unselected fresh set; the selection
endpoint also never unsets or removes a selected theme.  But selection
is NOT final against the initial task: its theme-regeneration step
deletes and recreates all of a job's themes with `is_selected = false`
(see the counterexample). -/
theorem claim_C9 (st st0 : St) (req : SelReq) (inp : ContInputs)
    (inpI : InitInputs)
    (hsel : selCount st.themes ≤ 1) (hsel0 : selCount st0.themes ≤ 1)
    (hphase0 : st0.job.current_phase = .INITIALIZATION) :
    selCount (theme_selection st req).st.themes ≤ 1 ∧
    (∀ th ∈ st.themes, th.is_selected = true →
      th ∈ (theme_selection st req).st.themes) ∧
    ((continue_workflow_after_selection_task inp st).run.st.themes = st.themes ∧
      ∀ s ∈ (continue_workflow_after_selection_task inp st).run.trace,
        s.themes = st.themes) ∧
    (selCount (process_workflow_task inpI st0).1.st.themes ≤ 1 ∧
      ∀ s ∈ (process_workflow_task inpI st0).1.trace,
        selCount s.themes ≤ 1) := by
  refine ⟨?_, ?_, ?_, ?_⟩
  · simp only [theme_selection]
    split
    · exact hsel
    · split
      · exact hsel
      · split
        · exact hsel
        · split
          · exact hsel
          · split
            · exact hsel
            · rename_i hnone
              split
              · split
                · exact selCount_modify_le_one _ (by simpa using hnone) _
                · exact selCount_modify_le_one _ (by simpa using hnone) _
              · exact hsel
  · intro th hth hthsel
    simp only [theme_selection]
    split
    · exact hth
    · split
      · exact hth
      · split
        · exact hth
        · split
          · exact hth
          · split
            · exact hth
            · rename_i hnone
              exfalso
              have := List.any_eq_false.mp (by simpa using hnone) th hth
              simp [hthsel] at this
  · exact ⟨(cont_trace_inv inp st).1.1,
      fun s hs => ((cont_trace_inv inp st).2 s hs).1⟩
  · have htr := process_trace inpI st0 hphase0
    refine ⟨?_, ?_⟩
    · rcases htr.2.2 with h | h
      · rw [h]; exact hsel0
      · rw [h, selCount_parsedThemes]
        omega
    · intro s hs
      rcases (htr.1 s hs).2 with h | h
      · rw [h]; exact hsel0
      · rw [h, selCount_parsedThemes]
        omega

/-- Witness for C9 at concrete selection, continuation and initial-task
runs. -/
theorem claim_C9_witness :
    selCount (theme_selection stAwaitTwo ⟨true, some "2"⟩).st.themes ≤ 1 ∧
    (continue_workflow_after_selection_task contInputsOk stAwaitTwo).run.st.themes =
      stAwaitTwo.themes ∧
    selCount (process_workflow_task initInputsOk ⟨jobFresh, []⟩).1.st.themes ≤ 1 :=
  ⟨(claim_C9 stAwaitTwo ⟨jobFresh, []⟩ ⟨true, some "2"⟩ contInputsOk initInputsOk
      (by decide) (by decide) rfl).1,
   (claim_C9 stAwaitTwo ⟨jobFresh, []⟩ ⟨true, some "2"⟩ contInputsOk initInputsOk
      (by decide) (by decide) rfl).2.2.1.1,
   (claim_C9 stAwaitTwo ⟨jobFresh, []⟩ ⟨true, some "2"⟩ contInputsOk initInputsOk
      (by decide) (by decide) rfl).2.2.2.1⟩

end ContentPlan
